import Mathlib

/-!
Shallow embedding of the whatsapp-listings repository (TypeScript) for
specification checking.  Strings are modelled as lists of Unicode code
points (`List Nat`); the inputs exercised by the theorems are ASCII, for
which JavaScript's UTF-16 `length`, `toLowerCase`, and UTF-8 hashing agree
with the code-point model.  JavaScript regular expressions (used by the
property filter with the `g` flag, hence statefully) are embedded as an
explicit AST with ECMAScript backtracking search semantics and an explicit
`lastIndex` threaded through every `test` call, exactly as the engine does
for a global regex.
-/

namespace JS

/-- Code points that JavaScript `\s` (and `String.prototype.trim`) treat as
whitespace: tab, LF, VT, FF, CR, space, NBSP, Ogham space, the U+2000 block,
line/paragraph separators, narrow no-break, medium mathematical, ideographic
space and the BOM. -/
def isWs (c : Nat) : Bool :=
  c == 9 || c == 10 || c == 11 || c == 12 || c == 13 || c == 32 ||
  c == 160 || c == 5760 || (8192 ≤ c && c ≤ 8202) || c == 8232 ||
  c == 8233 || c == 8239 || c == 8287 || c == 12288 || c == 65279

/-- Decimal digit class, JavaScript `\d` = `[0-9]`. -/
def isDigit (c : Nat) : Bool := 48 ≤ c && c ≤ 57

/-- Convert a Lean string to its list of Unicode code points. -/
def codes (s : String) : List Nat := s.data.map Char.toNat

/-- ASCII lowering, the effect of `String.prototype.toLowerCase` on the
ASCII inputs used throughout (full Unicode case mapping is out of scope). -/
def lowerCode (c : Nat) : Nat := if 65 ≤ c && c ≤ 90 then c + 32 else c

/-- Model of `s.toLowerCase()` on code points. -/
def toLower (s : List Nat) : List Nat := s.map lowerCode

/-- Model of `String.prototype.trim`: strip leading and trailing JS
whitespace. -/
def trim (s : List Nat) : List Nat :=
  ((s.dropWhile isWs).reverse.dropWhile isWs).reverse

/-- Does `hay` start with `needle`? -/
def startsWithL : List Nat → List Nat → Bool
  | _, [] => true
  | [], _ :: _ => false
  | h :: hs, n :: ns => h == n && startsWithL hs ns

/-- Model of `String.prototype.includes`: substring containment. -/
def includes (hay needle : List Nat) : Bool :=
  (List.range (hay.length + 1)).any (fun i => startsWithL (hay.drop i) needle)

/-- Split on a single code point, one field per separator occurrence
(model of `s.split("\n")` when the code point is the newline). -/
def splitOnCode (sep : Nat) : List Nat → List (List Nat)
  | [] => [[]]
  | c :: rest =>
    if c == sep then [] :: splitOnCode sep rest
    else
      match splitOnCode sep rest with
      | h :: t => (c :: h) :: t
      | [] => [[c]]

/-- Number of maximal whitespace runs in a string, by a left fold carrying
whether the scan is currently inside a run. -/
def wsRuns (s : List Nat) : Nat :=
  (s.foldl
    (fun (acc : Nat × Bool) c =>
      if isWs c then (if acc.2 then acc else (acc.1 + 1, true))
      else (acc.1, false))
    (0, false)).1

/-- Length of `s.split(/\s+/)`: each maximal whitespace run separates two
fields (with empty fields at the ends when the string starts or ends with
whitespace), so the count is the number of runs plus one. -/
def splitWsLen (s : List Nat) : Nat := wsRuns s + 1

/-- Worker for `collapseWs`; the flag records whether the previous character
belonged to a whitespace run. -/
def collapseWsGo (inRun : Bool) : List Nat → List Nat
  | [] => []
  | c :: rest =>
    if isWs c then
      if inRun then collapseWsGo true rest else 32 :: collapseWsGo true rest
    else c :: collapseWsGo false rest

/-- Replace every maximal whitespace run with a single space, the effect of
`.replace(/\s+/g, " ")`. -/
def collapseWs (s : List Nat) : List Nat := collapseWsGo false s

end JS

namespace Regex

/-- Regular-expression AST covering the constructs used by the property
filter patterns: the empty word, a one-character class, concatenation,
prioritized alternation and greedy Kleene star. -/
inductive Re where
  | eps : Re
  | cls : (Nat → Bool) → Re
  | seq : Re → Re → Re
  | alt : Re → Re → Re
  | star : Re → Re

/-- Single literal character. -/
def Re.chr (c : Nat) : Re := .cls (fun x => x == c)

/-- Literal string (already lower-case where the source flag `i` applies,
since the filter only ever tests lower-cased text). -/
def Re.lit (s : String) : Re :=
  s.data.foldr (fun ch r => .seq (.chr ch.toNat) r) .eps

/-- Class `\d`. -/
def Re.digit : Re := .cls JS.isDigit

/-- Class `\s`. -/
def Re.ws : Re := .cls JS.isWs

/-- Greedy `+`. -/
def Re.plus (r : Re) : Re := .seq r (.star r)

/-- Greedy `?` (prefer the non-empty branch, as ECMAScript does). -/
def Re.quest (r : Re) : Re := .alt r .eps

/-- Exact repetition, for counted quantifiers such as `\d{10}`. -/
def Re.rep : Nat → Re → Re
  | 0, _ => .eps
  | n + 1, r => .seq r (Re.rep n r)

/-- Backtracking matcher: all suffixes remaining after a match of `r` at the
head of `s`, in ECMAScript priority order (greedy first, left alternative
first).  The recursion is structural on the fuel, which bounds the depth of
the backtracking tree; star iterations that consume no input are not
retried, matching the ECMAScript empty-loop rule, so the depth is at most
the pattern size times the input length plus one per level, and the generous
fuel supplied by `searchEnd` below can never be exhausted on the pattern
set of this repository. -/
def mtake : Nat → Re → List Nat → List (List Nat)
  | 0, _, _ => []
  | _ + 1, .eps, s => [s]
  | _ + 1, .cls p, s =>
    match s with
    | [] => []
    | c :: rest => if p c then [rest] else []
  | fuel + 1, .seq r1 r2, s => (mtake fuel r1 s).flatMap (fun s1 => mtake fuel r2 s1)
  | fuel + 1, .alt r1 r2, s => mtake fuel r1 s ++ mtake fuel r2 s
  | fuel + 1, .star r, s =>
    ((mtake fuel r s).flatMap
      (fun s1 => if s1.length < s.length then mtake fuel (.star r) s1 else [])) ++ [s]

/-- Size of a pattern, used to provision matcher fuel. -/
def Re.size : Re → Nat
  | .eps => 1
  | .cls _ => 1
  | .seq r1 r2 => r1.size + r2.size + 1
  | .alt r1 r2 => r1.size + r2.size + 1
  | .star r => r.size + 1

/-- Fuel that dominates the backtracking depth of `r` on `s`: one level per
AST node on a path plus one star unfolding per consumed character, each
re-opening the body. -/
def matchFuel (r : Re) (s : List Nat) : Nat :=
  (r.size + 2) * (s.length + 2)

/-- Search worker: try to match at `i`, advance on failure; `rem` bounds the
number of start positions left (structural recursion). -/
def searchGo (r : Re) (s : List Nat) : Nat → Nat → Option Nat
  | _, 0 => none
  | i, rem + 1 =>
    if s.length < i then none
    else
      match mtake (matchFuel r s) r (s.drop i) with
      | leftover :: _ => some (s.length - leftover.length)
      | [] => searchGo r s (i + 1) rem

/-- End position of the leftmost match of `r` in `s` starting at or after
index `i`, following ECMAScript search: attempt at `i`, advance on
failure; there are at most `s.length + 1` start positions. -/
def searchEnd (r : Re) (s : List Nat) (i : Nat) : Option Nat :=
  searchGo r s i (s.length + 1)

/-- ECMAScript `RegExp.prototype.test` for a regex with the `g` flag: start
the search at `lastIndex`; on success set `lastIndex` to the match end, on
failure reset it to `0`. -/
def testG (r : Re) (s : List Nat) (lastIndex : Nat) : Bool × Nat :=
  match searchEnd r s lastIndex with
  | some e => (true, e)
  | none => (false, 0)

end Regex

namespace PropertyMessageFilter

open Regex Regex.Re

/-- Keyword list `PROPERTY_KEYWORDS` of `PropertyMessageFilter`
(src/src/utils/jwt-utils.ts, second document: property-filter). -/
def PROPERTY_KEYWORDS : List String :=
  ["apartment", "flat", "house", "villa", "plot", "land", "commercial",
   "office", "shop", "warehouse", "pg", "hostel", "building", "tower",
   "society", "complex", "residence", "project",
   "bhk", "bedroom", "room", "hall", "kitchen",
   "sale", "rent", "lease", "buy", "sell", "available", "booking",
   "possession", "handover", "ready", "under construction",
   "furnished", "unfurnished", "semi-furnished", "semi furnished",
   "bathroom", "washroom", "balcony", "terrace", "garden", "parking",
   "covered parking", "open parking", "car park", "lift", "elevator",
   "security", "gated", "amenities",
   "sqft", "sq ft", "sq.ft", "square feet", "area", "carpet", "built up",
   "builtup", "super area", "super built up",
   "price", "rent", "lakh", "crore", "thousand", "deposit", "advance",
   "brokerage", "commission", "token", "booking amount", "maintenance",
   "monthly", "yearly", "per month", "per year",
   "near", "close to", "walking distance", "metro", "station", "school",
   "hospital", "mall", "market", "road", "street", "lane", "avenue",
   "cross", "junction", "circle",
   "gym", "swimming pool", "pool", "club house", "clubhouse", "play area",
   "playground", "garden", "park", "jogging track", "cctv", "intercom",
   "power backup", "generator", "water supply", "bore well", "tank",
   "wifi", "broadband"]

/-- Keyword list `EXCLUSION_KEYWORDS` of `PropertyMessageFilter`. -/
def EXCLUSION_KEYWORDS : List String :=
  ["good morning", "good evening", "good night", "good afternoon",
   "how are you", "how r u", "thanks", "thank you", "welcome", "ok",
   "okay", "yes", "no", "sure", "fine", "alright", "happy birthday",
   "congratulations", "congrats", "best wishes", "get well soon",
   "take care", "have a good day", "see you", "bye", "goodbye", "tc",
   "gm", "gn", "gud mrng"]

/-- Class `[,\s]`. -/
def commaOrWs : Re := .cls (fun c => c == 44 || JS.isWs c)

/-- Class `[-.\s]`. -/
def dashDotWs : Re := .cls (fun c => c == 45 || c == 46 || JS.isWs c)

/-- Class `[:=]`. -/
def colonOrEq : Re := .cls (fun c => c == 58 || c == 61)

/-- Subpattern `\s*`. -/
def wsStar : Re := .star .ws

/-- Subpattern `\d+`. -/
def digits1 : Re := .plus .digit

/-- Subpattern `\d+(?:[,\s]\d+)*(?:\.\d+)?` shared by the price patterns. -/
def numGroups : Re :=
  .seq digits1 (.seq (.star (.seq commaOrWs digits1))
    (.quest (.seq (chr 46) digits1)))

/-- Subpattern `(?:lakh|crore|k|thousand)`. -/
def unitAlt : Re := .alt (lit "lakh") (.alt (lit "crore") (.alt (lit "k") (lit "thousand")))

/-- Pattern array `PRICE_PATTERNS` (all with flags `gi`; the filter only
tests lower-cased text, so literals are embedded lower-case). -/
def PRICE_PATTERNS : List Re :=
  [ .seq (chr 8377) (.seq wsStar (.seq numGroups (.quest (.seq wsStar unitAlt)))),
    .seq (lit "rs") (.seq (.quest (chr 46)) (.seq wsStar (.seq numGroups (.quest (.seq wsStar unitAlt))))),
    .seq numGroups (.seq wsStar unitAlt),
    .seq numGroups (.seq wsStar
      (.alt (.seq (lit "per") (.seq wsStar (lit "month")))
        (.alt (.seq (lit "per") (.seq wsStar (lit "year")))
          (.alt (lit "monthly") (lit "yearly"))))) ]

/-- Pattern array `BHK_PATTERNS`. -/
def BHK_PATTERNS : List Re :=
  [ .seq digits1 (.seq wsStar (lit "bhk")),
    .seq digits1 (.seq wsStar (.seq (lit "bed") (.seq wsStar (lit "room")))),
    .seq digits1 (.seq wsStar (lit "br")),
    .seq digits1 (.seq wsStar (.seq (lit "b") (.seq wsStar (.seq (lit "h") (.seq wsStar (lit "k")))))) ]

/-- Pattern array `AREA_PATTERNS`. -/
def AREA_PATTERNS : List Re :=
  [ .seq digits1 (.seq wsStar
      (.alt (.seq (lit "sq") (.seq wsStar (lit "ft")))
        (.alt (lit "sqft")
          (.alt (.seq (lit "sq") (.seq (chr 46) (lit "ft")))
            (.seq (lit "square") (.seq wsStar (lit "feet"))))))),
    .seq digits1 (.seq wsStar
      (.alt (.seq (lit "sq") (.seq wsStar (lit "m")))
        (.alt (lit "sqm") (.seq (lit "square") (.seq wsStar (lit "meter")))))),
    .seq (lit "area") (.seq wsStar (.seq colonOrEq (.seq wsStar digits1))),
    .seq (lit "carpet") (.seq wsStar (.seq colonOrEq (.seq wsStar digits1))) ]

/-- Pattern array `CONTACT_PATTERNS` (the first three carry only the `g`
flag in the source; none contain letters affected by case). -/
def CONTACT_PATTERNS : List Re :=
  [ .rep 10 .digit,
    .seq (.rep 3 .digit) (.seq (.quest dashDotWs) (.seq (.rep 3 .digit) (.seq (.quest dashDotWs) (.rep 4 .digit)))),
    .seq (chr 43) (.seq (lit "91") (.seq (.quest dashDotWs) (.rep 10 .digit))),
    .seq (lit "contact") (.seq wsStar (.seq colonOrEq (.seq wsStar digits1))),
    .seq (lit "call") (.seq wsStar (.seq colonOrEq (.seq wsStar digits1))) ]

/-- Pattern array `FLOOR_PATTERNS`. -/
def FLOOR_PATTERNS : List Re :=
  [ .seq digits1 (.seq (.quest (.alt (lit "st") (.alt (lit "nd") (.alt (lit "rd") (lit "th")))))
      (.seq wsStar (lit "floor"))),
    .seq (lit "floor") (.seq wsStar (.seq colonOrEq (.seq wsStar digits1))),
    .seq (lit "ground") (.seq wsStar (lit "floor")),
    lit "basement" ]

/-- The mutable `lastIndex` of every pattern object.  The pattern arrays are
`static readonly` class fields in the source, so the same `RegExp` objects —
and hence the same `lastIndex` slots — are shared by every call of
`filterMessage`. -/
structure RegexState where
  price : List Nat
  bhk : List Nat
  area : List Nat
  contact : List Nat
  floor : List Nat
deriving DecidableEq, Repr

/-- Fresh regex objects: every `lastIndex` is `0`. -/
def initRegexState : RegexState :=
  ⟨[0, 0, 0, 0], [0, 0, 0, 0], [0, 0, 0, 0], [0, 0, 0, 0, 0], [0, 0, 0, 0]⟩

/-- One `for (const pattern of patternArray) { if (pattern.test(text)) {
...; break } }` pass: test patterns in order, stop at the first success;
patterns after the break keep their `lastIndex` untouched. -/
def testFamily : List Re → List Nat → List Nat → Bool × List Nat
  | [], _, lis => (false, lis)
  | _ :: _, _, [] => (false, [])
  | r :: rs, s, li :: lis =>
    let (b, li2) := Regex.testG r s li
    if b then (true, li2 :: lis)
    else
      let (b2, lis2) := testFamily rs s lis
      (b2, li2 :: lis2)

/-- Result record `PropertyFilterResult`.  `confidence100` is the clamped
integer score; the source returns `confidence = confidence100 / 100`, an
order- and equality-preserving rescaling. -/
structure PropertyFilterResult where
  isPropertyListing : Bool
  confidence100 : Nat
  matchedKeywords : List String
  matchedPatterns : List String
  reason : String
deriving DecidableEq, Repr

/-- Emoji test `/[\u{1F600}-\u{1F64F}]|...|[\u{2700}-\u{27BF}]/u` applied to
the raw message. -/
def hasEmojiCode (c : Nat) : Bool :=
  (0x1F600 ≤ c && c ≤ 0x1F64F) || (0x1F300 ≤ c && c ≤ 0x1F5FF) ||
  (0x1F680 ≤ c && c ≤ 0x1F6FF) || (0x1F1E0 ≤ c && c ≤ 0x1F1FF) ||
  (0x2600 ≤ c && c ≤ 0x26FF) || (0x2700 ≤ c && c ≤ 0x27BF)

/-- Model of `PropertyMessageFilter.filterMessage`.  The regex state is the
hidden mutable state of the shared `static readonly` pattern objects; the
function returns the result together with the updated state. -/
def filterMessage (message : String) (st : RegexState) :
    PropertyFilterResult × RegexState :=
  if message = "" then
    (⟨false, 0, [], [], "Invalid or empty message"⟩, st)
  else
    let msgCodes := JS.codes message
    let text := JS.trim (JS.toLower msgCodes)
    let hasExclusionKeywords :=
      EXCLUSION_KEYWORDS.any (fun k => JS.includes text (JS.toLower (JS.codes k)))
    if hasExclusionKeywords && text.length < 50 then
      (⟨false, 0, [], [], "Contains exclusion keywords and is too short"⟩, st)
    else
      let matchedKeywords :=
        PROPERTY_KEYWORDS.filter (fun k => JS.includes text (JS.toLower (JS.codes k)))
      let (priceB, priceLis) := testFamily PRICE_PATTERNS text st.price
      let (bhkB, bhkLis) := testFamily BHK_PATTERNS text st.bhk
      let (areaB, areaLis) := testFamily AREA_PATTERNS text st.area
      let (contactB, contactLis) := testFamily CONTACT_PATTERNS text st.contact
      let (floorB, floorLis) := testFamily FLOOR_PATTERNS text st.floor
      let st2 : RegexState := ⟨priceLis, bhkLis, areaLis, contactLis, floorLis⟩
      let matchedPatterns :=
        (if priceB then ["price"] else []) ++ (if bhkB then ["bhk"] else []) ++
        (if areaB then ["area"] else []) ++ (if contactB then ["contact"] else []) ++
        (if floorB then ["floor"] else [])
      let lines := (JS.splitOnCode 10 msgCodes).filter (fun l => (JS.trim l).length > 0)
      let hasMultipleLines := lines.length > 2
      let hasNumbers := msgCodes.any JS.isDigit
      let wordCount := JS.splitWsLen msgCodes
      let hasEmojis := msgCodes.any hasEmojiCode
      let kwCount := matchedKeywords.length
      let score : Int :=
        (if kwCount ≥ 3 then 25 else if kwCount ≥ 2 then 15 else if kwCount ≥ 1 then 5 else 0) +
        (if priceB then 20 else 0) + (if bhkB then 20 else 0) +
        (if areaB then 15 else 0) + (if contactB then 10 else 0) +
        (if floorB then 5 else 0) +
        (if hasMultipleLines && wordCount > 15 then 10 else 0) +
        (if hasNumbers && wordCount > 10 then 5 else 0) +
        (if hasEmojis && kwCount > 0 then 5 else 0) +
        (if wordCount > 20 && kwCount > 0 then 5 else 0) -
        (if wordCount < 5 && kwCount < 2 then 10 else 0)
      let reasons : List String :=
        (if kwCount ≥ 3 then [toString kwCount ++ " property keywords"]
         else if kwCount ≥ 2 then [toString kwCount ++ " property keywords"]
         else if kwCount ≥ 1 then [toString kwCount ++ " property keyword"] else []) ++
        (if priceB then ["price pattern"] else []) ++
        (if bhkB then ["BHK pattern"] else []) ++
        (if areaB then ["area pattern"] else []) ++
        (if contactB then ["contact pattern"] else []) ++
        (if floorB then ["floor pattern"] else []) ++
        (if hasMultipleLines && wordCount > 15 then ["structured format"] else []) ++
        (if hasNumbers && wordCount > 10 then ["contains numbers"] else []) ++
        (if hasEmojis && kwCount > 0 then ["formatted with emojis"] else []) ++
        (if wordCount > 20 && kwCount > 0 then ["detailed message"] else []) ++
        (if wordCount < 5 && kwCount < 2 then ["too short"] else [])
      let confidence100 : Nat := (min 100 (max 0 score)).toNat
      let isPropertyListing := confidence100 ≥ 60
      let reason := String.intercalate ", " reasons
      (⟨isPropertyListing, confidence100, matchedKeywords, matchedPatterns,
        if reason = "" then "No significant indicators" else reason⟩, st2)

end PropertyMessageFilter

namespace SHA256

/-- Keep the low 32 bits. -/
def mask32 (x : Nat) : Nat := x % 4294967296

/-- Rotate a 32-bit word right by `n`. -/
def rotr (n x : Nat) : Nat := mask32 ((x >>> n) ||| (x <<< (32 - n)))

/-- Bitwise complement within 32 bits. -/
def not32 (x : Nat) : Nat := x ^^^ 4294967295

/-- Round constants. -/
def K : List Nat :=
  [0x428A2F98, 0x71374491, 0xB5C0FBCF, 0xE9B5DBA5, 0x3956C25B, 0x59F111F1,
   0x923F82A4, 0xAB1C5ED5, 0xD807AA98, 0x12835B01, 0x243185BE, 0x550C7DC3,
   0x72BE5D74, 0x80DEB1FE, 0x9BDC06A7, 0xC19BF174, 0xE49B69C1, 0xEFBE4786,
   0x0FC19DC6, 0x240CA1CC, 0x2DE92C6F, 0x4A7484AA, 0x5CB0A9DC, 0x76F988DA,
   0x983E5152, 0xA831C66D, 0xB00327C8, 0xBF597FC7, 0xC6E00BF3, 0xD5A79147,
   0x06CA6351, 0x14292967, 0x27B70A85, 0x2E1B2138, 0x4D2C6DFC, 0x53380D13,
   0x650A7354, 0x766A0ABB, 0x81C2C92E, 0x92722C85, 0xA2BFE8A1, 0xA81A664B,
   0xC24B8B70, 0xC76C51A3, 0xD192E819, 0xD6990624, 0xF40E3585, 0x106AA070,
   0x19A4C116, 0x1E376C08, 0x2748774C, 0x34B0BCB5, 0x391C0CB3, 0x4ED8AA4A,
   0x5B9CCA4F, 0x682E6FF3, 0x748F82EE, 0x78A5636F, 0x84C87814, 0x8CC70208,
   0x90BEFFFA, 0xA4506CEB, 0xBEF9A3F7, 0xC67178F2]

/-- Initial hash state. -/
def H0 : List Nat :=
  [0x6A09E667, 0xBB67AE85, 0x3C6EF372, 0xA54FF53A,
   0x510E527F, 0x9B05688C, 0x1F83D9AB, 0x5BE0CD19]

/-- Big-endian bytes of `x`, `n` bytes wide. -/
def beBytes (n x : Nat) : List Nat :=
  (List.range n).map (fun i => (x >>> (8 * (n - 1 - i))) &&& 255)

/-- Pad a byte message: append `0x80`, zeros to 56 mod 64, then the bit
length as 8 big-endian bytes. -/
def pad (msg : List Nat) : List Nat :=
  let len := msg.length
  let zeros := (64 + 56 - ((len + 1) % 64)) % 64
  msg ++ [0x80] ++ List.replicate zeros 0 ++ beBytes 8 (len * 8)

/-- Split a list into chunks of `n` elements (`n` is used as `n ≥ 1`): the
`i`-th chunk is the `n`-element window starting at `i * n`. -/
def chunks (n : Nat) (l : List α) : List (List α) :=
  (List.range ((l.length + n - 1) / n)).map (fun i => (l.drop (i * n)).take n)

/-- Combine 4 bytes into one big-endian 32-bit word. -/
def toWords : List Nat → List Nat
  | b0 :: b1 :: b2 :: b3 :: rest =>
    ((b0 <<< 24) ||| (b1 <<< 16) ||| (b2 <<< 8) ||| b3) :: toWords rest
  | _ => []

/-- Message-schedule small sigma 0. -/
def ssig0 (x : Nat) : Nat := rotr 7 x ^^^ rotr 18 x ^^^ (x >>> 3)

/-- Message-schedule small sigma 1. -/
def ssig1 (x : Nat) : Nat := rotr 17 x ^^^ rotr 19 x ^^^ (x >>> 10)

/-- Extend the 16 block words to the 64 schedule words. -/
def extendW (w : List Nat) : List Nat :=
  (List.range 48).foldl
    (fun w _ =>
      let n := w.length
      w ++ [mask32 (ssig1 (w.getD (n - 2) 0) + w.getD (n - 7) 0 +
        ssig0 (w.getD (n - 15) 0) + w.getD (n - 16) 0)])
    w

/-- One compression round; the state is the word list `[a, b, c, d, e, f, g,
h]` and `kw` is the sum of the round constant and schedule word. -/
def round (st : List Nat) (kw : Nat) : List Nat :=
  let a := st.getD 0 0
  let b := st.getD 1 0
  let c := st.getD 2 0
  let d := st.getD 3 0
  let e := st.getD 4 0
  let f := st.getD 5 0
  let g := st.getD 6 0
  let h := st.getD 7 0
  let s1 := rotr 6 e ^^^ rotr 11 e ^^^ rotr 25 e
  let ch := (e &&& f) ^^^ (not32 e &&& g)
  let t1 := mask32 (h + s1 + ch + kw)
  let s0 := rotr 2 a ^^^ rotr 13 a ^^^ rotr 22 a
  let mj := (a &&& b) ^^^ (a &&& c) ^^^ (b &&& c)
  let t2 := mask32 (s0 + mj)
  [mask32 (t1 + t2), a, b, c, mask32 (d + t1), e, f, g]

/-- Compress one 16-word block into the hash state. -/
def compress (h : List Nat) (block : List Nat) : List Nat :=
  let w := extendW block
  let st := ((K.zip w).map (fun p => p.1 + p.2)).foldl round h
  (h.zip st).map (fun p => mask32 (p.1 + p.2))

/-- SHA-256 digest (32 bytes) of a byte message. -/
def sha256 (msg : List Nat) : List Nat :=
  let hh := ((chunks 64 (pad msg)).map toWords).foldl compress H0
  hh.flatMap (beBytes 4)

/-- Lower-case hex character of a nibble. -/
def hexChar (n : Nat) : Nat := if n < 10 then 48 + n else 87 + n

/-- Lower-case hex string (as code points) of a byte list, the model of
Node's `.digest("hex")`. -/
def hexDigest (bytes : List Nat) : List Nat :=
  bytes.flatMap (fun b => [hexChar (b >>> 4), hexChar (b &&& 15)])

end SHA256

namespace WhatsAppService

/-- Model of `WhatsAppService.createMessageHash` (current service,
src/unnamed/part_011): normalize the message text by trimming, lower-casing
and collapsing whitespace runs to single spaces, join with the sender by a
`|` (code 124), and take the SHA-256 hex digest.  Inputs are ASCII, so the
code-point model coincides with Node's UTF-8 hashing. -/
def createMessageHash (messageText sender : String) : List Nat :=
  let normalizedText := JS.collapseWs (JS.toLower (JS.trim (JS.codes messageText)))
  let hashInput := normalizedText ++ [124] ++ JS.codes sender
  SHA256.hexDigest (SHA256.sha256 hashInput)

/-- Stored row of the `whatsapp_messages` table, restricted to the columns
the deduplication path reads and writes. -/
structure MsgRow where
  user_id : String
  message_hash : List Nat
  group_name : String
deriving DecidableEq, Repr

/-- Model of `WhatsAppService.checkForDuplicateMessage`: query the first row
of this user with this hash; on a query error (reported or thrown) the
function logs and returns `null`, indistinguishable from the no-duplicate
answer.  `queryOk` is whether the store query succeeds. -/
def checkForDuplicateMessage (queryOk : Bool) (rows : List MsgRow)
    (messageHash : List Nat) (userId : String) : Option MsgRow :=
  if queryOk then
    (rows.filter (fun r => r.user_id == userId && r.message_hash == messageHash)).head?
  else none

/-- Model of the storage tail of `WhatsAppService.handleMessage`
(src/unnamed/part_011, after the target-group and relevance-filter gates):
compute the content hash, check for a duplicate, skip the insert when a
duplicate is found, insert otherwise.  Returns whether the row was inserted
together with the updated table. -/
def handleMessageStorage (userId messageText sender : String)
    (queryOk : Bool) (rows : List MsgRow) (groupName : String) :
    Bool × List MsgRow :=
  let messageHash := createMessageHash messageText sender
  match checkForDuplicateMessage queryOk rows messageHash userId with
  | some _ => (false, rows)
  | none => (true, rows ++ [⟨userId, messageHash, groupName⟩])

end WhatsAppService

namespace GroqParser

/-- Raw `parking` value as delivered in the inference JSON: the source
normalizer accepts a boolean, a numeric count or a numeric string. -/
inductive ParkingVal where
  | bool (b : Bool)
  | num (q : ℚ)
  | str (s : String)
deriving DecidableEq, Repr

/-- Record `ParsedRealEstateData` (src/src/services/groq-parser.ts), with
JSON-typed fields: strings, numbers (as rationals) and nullable slots as
options.  `validateAndNormalizeData` mutates this record in place; the model
returns the updated copy. -/
structure ParsedRealEstateData where
  property_name : Option String := none
  property_type : Option String := none
  listing_type : Option String := none
  price : Option String := none
  price_numeric : Option ℚ := none
  location : Option String := none
  area_name : Option String := none
  city : Option String := none
  bedrooms : Option ℚ := none
  bathrooms : Option ℚ := none
  area_sqft : Option ℚ := none
  floor_number : Option ℚ := none
  total_floors : Option ℚ := none
  amenities : Option (List String) := none
  furnishing : Option String := none
  parking : Option ParkingVal := none
  parking_count : Option ℚ := none
  contact_info : Option String := none
  availability_date : Option String := none
  description : Option String := none
  parsing_confidence : Option ℚ := none
deriving DecidableEq, Repr

/-- JavaScript `parseInt` applied to a finite number: the number is printed
and re-parsed, which truncates toward zero (decimal notation; the exponential
corner cases of very small magnitudes do not arise for the integer-valued
listing fields). -/
def jsParseIntNum (q : ℚ) : Int := q.num / (q.den : Int)

/-- Valid listing types accepted by the normalizer. -/
def validListingTypes : List String := ["sale", "rental", "lease"]

/-- Valid property types accepted by the normalizer. -/
def validPropertyTypes : List String :=
  ["apartment", "house", "villa", "commercial", "office", "shop",
   "warehouse", "land", "other"]

/-- Valid furnishing values accepted by the normalizer. -/
def validFurnishing : List String := ["furnished", "semi-furnished", "unfurnished"]

/-- String lower-casing on code points, wrapped back into a string. -/
def lowerStr (s : String) : String :=
  String.mk ((JS.toLower (JS.codes s)).map Char.ofNat)

/-- JavaScript truthiness of a nullable string: `null`, `undefined` and the
empty string are falsy. -/
def truthyStr : Option String → Bool
  | none => false
  | some s => s ≠ ""

/-- First block of `validateAndNormalizeData` ("Ensure required fields"):
null the listing type and zero the confidence unless the listing type is a
truthy member of the recognized set. -/
def normListingType (data : ParsedRealEstateData) : ParsedRealEstateData :=
  if !truthyStr data.listing_type ||
     !(validListingTypes.contains (data.listing_type.getD "")) then
    { data with listing_type := none, parsing_confidence := some 0 }
  else data

/-- Second block ("Normalize property type"): a truthy unrecognized property
type falls back to the generic `"other"`. -/
def normPropertyType (data : ParsedRealEstateData) : ParsedRealEstateData :=
  if truthyStr data.property_type &&
     !(validPropertyTypes.contains (lowerStr (data.property_type.getD ""))) then
    { data with property_type := some "other" }
  else data

/-- Third block ("Normalize furnishing"): a truthy unrecognized furnishing
value is nulled. -/
def normFurnishing (data : ParsedRealEstateData) : ParsedRealEstateData :=
  if truthyStr data.furnishing &&
     !(validFurnishing.contains (lowerStr (data.furnishing.getD ""))) then
    { data with furnishing := none }
  else data

/-- Fourth block ("Ensure confidence is between 0 and 1"): clamp; an absent
confidence stays absent since in JS `undefined` compares false with both
bounds. -/
def clampConfidence (data : ParsedRealEstateData) : ParsedRealEstateData :=
  match data.parsing_confidence with
  | some c =>
    if c > 1 then { data with parsing_confidence := some 1 }
    else if c < 0 then { data with parsing_confidence := some 0 }
    else data
  | none => data

/-- Option-level `parseInt` for the numeric-field cleanup. -/
def pInt (f : Option ℚ) : Option ℚ := f.map (fun q => ((jsParseIntNum q : Int) : ℚ))

/-- Fifth block ("Clean up numeric fields"): `parseInt` each declared
numeric field that is present. -/
def coerceNumericFields (data : ParsedRealEstateData) : ParsedRealEstateData :=
  { data with
    price_numeric := pInt data.price_numeric
    bedrooms := pInt data.bedrooms
    bathrooms := pInt data.bathrooms
    area_sqft := pInt data.area_sqft
    floor_number := pInt data.floor_number
    total_floors := pInt data.total_floors
    parking_count := pInt data.parking_count }

/-- Sixth block ("Handle parking field"): split a numeric or numeric-string
parking indicator into a boolean availability flag plus a count; a
non-numeric string nulls both. -/
def normParking (data : ParsedRealEstateData) : ParsedRealEstateData :=
  match data.parking with
  | some (.str s) =>
    match (JS.codes s).head?.map JS.isDigit with
    | some true =>
      let n : ℚ := (((JS.codes s).takeWhile JS.isDigit).foldl (fun a c => a * 10 + (c - 48)) 0 : Nat)
      { data with parking_count := some n, parking := some (.bool (n > 0)) }
    | _ => { data with parking := none, parking_count := none }
  | some (.num q) => { data with parking_count := some q, parking := some (.bool (q > 0)) }
  | some (.bool b) => { data with parking := some (.bool b) }
  | none => data

/-- Model of `GroqRealEstateParser.validateAndNormalizeData`: the source
blocks applied in order (the `amenities` array check is a no-op on the
JSON-typed field). -/
def validateAndNormalizeData (data : ParsedRealEstateData) : ParsedRealEstateData :=
  normParking (coerceNumericFields (clampConfidence (normFurnishing
    (normPropertyType (normListingType data)))))

/-- Model of `GroqRealEstateParser.parseRealEstateMessagesBatch` after the
completion arrives: `resp` is the `results` array of the inference JSON, one
candidate-property list per entry.  A result count different from the number
of texts is a thrown error (surfaced as `Except.error`); otherwise every
candidate of every entry is normalized. -/
def parseRealEstateMessagesBatch (messageTexts : List String)
    (resp : List (List ParsedRealEstateData)) :
    Except String (List (List ParsedRealEstateData)) :=
  if resp.length ≠ messageTexts.length then
    .error ("Failed to parse message batch: Expected " ++
      toString messageTexts.length ++ " results, got " ++ toString resp.length)
  else
    .ok (resp.map (fun properties => properties.map validateAndNormalizeData))

end GroqParser

namespace RealEstateParsingJob

open GroqParser

/-- Message record as fetched by `DatabaseService.getUnprocessedMessages`. -/
structure Msg where
  id : String
  user_id : String
  message_text : String
deriving DecidableEq, Repr

/-- Stored row of `parsed_real_estate_properties` as built by
`DatabaseService.saveParsedProperty` (restricted to the gated columns;
`parsing_confidence` is stored as `parsedData.parsing_confidence || 0`). -/
structure StoredProperty where
  message_id : String
  user_id : String
  listing_type : Option String
  parsing_confidence : ℚ
deriving DecidableEq, Repr

/-- Model of `DatabaseService.saveParsedProperty`. -/
def saveParsedProperty (messageId userId : String)
    (p : ParsedRealEstateData) : StoredProperty :=
  { message_id := messageId
    user_id := userId
    listing_type := p.listing_type
    parsing_confidence := p.parsing_confidence.getD 0 }

/-- The persistence gate of `RealEstateParsingJob.processUnprocessedMessages`:
`propertyData.listing_type && propertyData.parsing_confidence &&
propertyData.parsing_confidence > 0.3` (JS truthiness: a null, empty-string
listing type or a null or zero confidence fails). -/
def saveGate (p : ParsedRealEstateData) : Bool :=
  truthyStr p.listing_type &&
    (match p.parsing_confidence with
     | none => false
     | some c => c ≠ 0 && c > mkRat 3 10)

/-- Whether a fetched message passes the `validMessages` filter:
`msg.message_text && msg.message_text.trim().length > 0`. -/
def hasText (m : Msg) : Bool := (JS.trim (JS.codes m.message_text)).length > 0

/-- Outcome of one extraction pass: the returned counters and error strings,
the message ids marked processed (store updates assumed to succeed), and the
extracted records persisted. -/
structure JobOutcome where
  processed : Nat := 0
  successful : Nat := 0
  failed : Nat := 0
  errors : List String := []
  marked : List String := []
  stored : List StoredProperty := []
deriving DecidableEq, Repr

/-- Per-message result handling of the success path: persist each candidate
that passes the gate, count the message successful if any candidate was
saved, and mark the message processed. -/
def handleResult (acc : JobOutcome) (mp : Msg × List ParsedRealEstateData) :
    JobOutcome :=
  let (message, properties) := mp
  let saved := (properties.filter saveGate).map
    (saveParsedProperty message.id message.user_id)
  { acc with
    processed := acc.processed + 1
    successful := acc.successful + (if saved.isEmpty then 0 else 1)
    stored := acc.stored ++ saved
    marked := acc.marked ++ [message.id] }

/-- One step of the `catch (batchError)` fallback loop: count the message
failed, record the error, and mark the message processed anyway. -/
def batchFailStep (e : String) (acc : JobOutcome) (m : Msg) : JobOutcome :=
  { acc with
    failed := acc.failed + 1
    errors := acc.errors ++
      ["Batch processing failed for message " ++ m.id ++ ": " ++ e]
    marked := acc.marked ++ [m.id] }

/-- Model of `RealEstateParsingJob.processUnprocessedMessages` for an
already-fetched batch `messages` and inference response `resp`.  Store
writes (`markMessageAsProcessed`, `saveParsedProperty`) are modelled as
succeeding; a failed batch parse is caught, each valid message is counted
failed with a recorded error and still marked processed, and the messages
without text are marked processed at the end.  The function always returns
an outcome: no error escapes the pass. -/
def processUnprocessedMessages (messages : List Msg)
    (resp : List (List ParsedRealEstateData)) : JobOutcome :=
  if messages.isEmpty then {} else
  let validMessages := messages.filter hasText
  let remaining := messages.filter (fun m => !hasText m)
  if validMessages.isEmpty then
    { marked := messages.map Msg.id }
  else
    let afterBatch :=
      match parseRealEstateMessagesBatch (validMessages.map Msg.message_text) resp with
      | .ok results => (validMessages.zip results).foldl handleResult {}
      | .error e => validMessages.foldl (batchFailStep e) {}
    { afterBatch with marked := afterBatch.marked ++ remaining.map Msg.id }

end RealEstateParsingJob

namespace ServiceManager

/-- A registry entry: the identity of the `WhatsAppService` instance plus
the fields of its `getConnectionStatus()` that the idle machinery consults
(`isConnected` and `qrCode`). -/
structure ServiceInfo where
  instanceId : Nat
  isConnected : Bool
  hasQrCode : Bool
deriving DecidableEq, Repr

/-- `CLEANUP_DELAY = 2 * 60 * 60 * 1000` (two hours), the per-tenant timer. -/
def CLEANUP_DELAY : Nat := 7200000

/-- `ACTIVITY_THRESHOLD = 30 * 60 * 1000` (thirty minutes), the sweep
threshold. -/
def ACTIVITY_THRESHOLD : Nat := 1800000

/-- State of `WhatsAppServiceManager` (src/src/services/
whatsapp-service-manager.ts, current version): the `userServices` map (as
an insertion-ordered association list), `userLastActivity`, and the absolute
fire deadline of each per-tenant cleanup timer.  Wall-clock time is passed
explicitly to each operation. -/
structure ManagerState where
  userServices : List (String × ServiceInfo) := []
  userLastActivity : List (String × Nat) := []
  cleanupDeadline : List (String × Nat) := []
  nextInstanceId : Nat := 0
deriving DecidableEq, Repr

/-- Lookup in an association list (`Map.prototype.get`). -/
def alGet (m : List (String × α)) (k : String) : Option α :=
  (m.find? (fun p => p.1 == k)).map Prod.snd

/-- Insertion-order-preserving update (`Map.prototype.set`). -/
def alSet (m : List (String × α)) (k : String) (v : α) : List (String × α) :=
  if (m.find? (fun p => p.1 == k)).isSome then
    m.map (fun p => if p.1 == k then (k, v) else p)
  else m ++ [(k, v)]

/-- Deletion (`Map.prototype.delete`). -/
def alDel (m : List (String × α)) (k : String) : List (String × α) :=
  m.filter (fun p => p.1 != k)

/-- Model of `resetCleanupTimer`: replace the pending timer by one firing
`CLEANUP_DELAY` from now. -/
def resetCleanupTimer (st : ManagerState) (userId : String) (now : Nat) :
    ManagerState :=
  { st with cleanupDeadline := alSet st.cleanupDeadline userId (now + CLEANUP_DELAY) }

/-- Model of `removeUserService`: clean up the service, delete the map
entries and clear the timer; a no-op for an absent tenant. -/
def removeUserService (st : ManagerState) (userId : String) : ManagerState :=
  match alGet st.userServices userId with
  | none => st
  | some _ =>
    { st with
      userServices := alDel st.userServices userId
      userLastActivity := alDel st.userLastActivity userId
      cleanupDeadline := alDel st.cleanupDeadline userId }

/-- Model of `getServiceForUser`: return the existing service or construct a
new one (fresh instance, disconnected, no QR), then record activity and
reset the cleanup timer.  The logout callback and the asynchronous
auto-start have no immediate effect on the registry maps. -/
def getServiceForUser (st : ManagerState) (userId : String) (now : Nat) :
    ServiceInfo × ManagerState :=
  let (svc, st1) :=
    match alGet st.userServices userId with
    | some s => (s, st)
    | none =>
      let s : ServiceInfo := ⟨st.nextInstanceId, false, false⟩
      (s, { st with
              userServices := alSet st.userServices userId s
              nextInstanceId := st.nextInstanceId + 1 })
  let st2 := { st1 with userLastActivity := alSet st1.userLastActivity userId now }
  (svc, resetCleanupTimer st2 userId now)

/-- Model of `getExistingService`: refresh activity when present, never
create. -/
def getExistingService (st : ManagerState) (userId : String) (now : Nat) :
    Option ServiceInfo × ManagerState :=
  match alGet st.userServices userId with
  | some s => (some s, { st with userLastActivity := alSet st.userLastActivity userId now })
  | none => (none, st)

/-- Model of the `setTimeout` callback installed by `resetCleanupTimer`
firing for `userId`: a disconnected service is removed; a connected one gets
its timer extended. -/
def cleanupTimerFire (st : ManagerState) (userId : String) (now : Nat) :
    ManagerState :=
  match alGet st.userServices userId with
  | none => st
  | some svc =>
    if !svc.isConnected then removeUserService st userId
    else resetCleanupTimer st userId now

/-- One entry of the periodic sweep: remove the service when the tenant has
been inactive longer than `ACTIVITY_THRESHOLD` and the service is not
connected and has no pending QR code.  `st` is the snapshot whose activity
map is consulted; `acc` accumulates the removals. -/
def sweepStep (st : ManagerState) (now : Nat) (acc : ManagerState)
    (p : String × ServiceInfo) : ManagerState :=
  let lastActivity := (alGet st.userLastActivity p.1).getD 0
  if now - lastActivity > ACTIVITY_THRESHOLD && !p.2.isConnected &&
      !p.2.hasQrCode then
    removeUserService acc p.1
  else acc

/-- Model of one periodic `cleanupInactiveServices` sweep over all
registered services. -/
def cleanupInactiveServices (st : ManagerState) (now : Nat) : ManagerState :=
  st.userServices.foldl (sweepStep st now) st

/-- Connection-status change of a tenant's service, driven by its own
connection events (outside the manager). -/
def setStatus (st : ManagerState) (userId : String) (conn qr : Bool) :
    ManagerState :=
  match alGet st.userServices userId with
  | none => st
  | some svc =>
    let svc2 : ServiceInfo := { svc with isConnected := conn, hasQrCode := qr }
    { st with userServices := alSet st.userServices userId svc2 }

/-- The operations that can touch the registry between two `getOrCreate`
calls. -/
inductive MgrOp where
  | getOrCreate (userId : String) (now : Nat)
  | getExisting (userId : String) (now : Nat)
  | remove (userId : String)
  | timerFire (userId : String) (now : Nat)
  | sweep (now : Nat)
  | setStatus (userId : String) (conn qr : Bool)
deriving DecidableEq, Repr

/-- Apply one operation. -/
def runOp (st : ManagerState) : MgrOp → ManagerState
  | .getOrCreate u now => (getServiceForUser st u now).2
  | .getExisting u now => (getExistingService st u now).2
  | .remove u => removeUserService st u
  | .timerFire u now => cleanupTimerFire st u now
  | .sweep now => cleanupInactiveServices st now
  | .setStatus u c q => setStatus st u c q

/-- Does applying `op` evict tenant `u` (remove its registry entry)? -/
def evictsUser (st : ManagerState) (op : MgrOp) (u : String) : Bool :=
  (alGet st.userServices u).isSome && (alGet (runOp st op).userServices u).isNone

/-- No operation of the sequence evicts tenant `u`. -/
def noEvictFrom (u : String) : ManagerState → List MgrOp → Bool
  | _, [] => true
  | st, op :: ops => !evictsUser st op u && noEvictFrom u (runOp st op) ops

end ServiceManager

namespace SupabaseAuthState

/-- Cache key `keyType:keyId` and opaque key data. -/
abbrev CacheKey := String × String

/-- In-memory state of the key synchronizer of `useSupabaseAuthState`
(src/unnamed/part_005): the `keysCache` map (insertion-ordered association
list, as a JS `Map`) and the `keysCacheDirty` flag. -/
structure KeysState where
  cache : List (CacheKey × Nat) := []
  dirty : Bool := false
deriving DecidableEq, Repr

/-- Remote-store behaviour during one flush: the outcome of the initial
fetch of existing key ids, and the error outcome of each upsert chunk (by
chunk index).  Delete results are not inspected by the source, so they do
not appear. -/
structure FlushOracle where
  fetchResult : Except String (List CacheKey)
  upsertError : Nat → Option String

/-- Lookup in the cache (`Map.prototype.get`). -/
def cacheGet (m : List (CacheKey × Nat)) (k : CacheKey) : Option Nat :=
  (m.find? (fun p => p.1 == k)).map Prod.snd

/-- Insertion-order-preserving update (`Map.prototype.set`). -/
def cacheSet (m : List (CacheKey × Nat)) (k : CacheKey) (v : Nat) :
    List (CacheKey × Nat) :=
  if (m.find? (fun p => p.1 == k)).isSome then
    m.map (fun p => if p.1 == k then (k, v) else p)
  else m ++ [(k, v)]

/-- Deletion (`Map.prototype.delete`). -/
def cacheDel (m : List (CacheKey × Nat)) (k : CacheKey) : List (CacheKey × Nat) :=
  m.filter (fun p => p.1 != k)

/-- First error among the upsert chunks, in chunk order: the source loops
over `upsertData` in chunks of 100 and throws at the first failing chunk. -/
def firstUpsertError (oracle : FlushOracle) (nChunks : Nat) : Option String :=
  (List.range nChunks).foldr
    (fun i acc => match oracle.upsertError i with
      | some e => some e
      | none => acc)
    none

/-- Model of `saveKeys`: a no-op when the cache is clean; otherwise fetch
the remote key set, delete remote-only keys (results unchecked), upsert the
cache in chunks of 100, and only then clear the dirty flag.  A fetch or
chunk-upsert failure is rethrown; the only in-memory mutation of the
function is the final `keysCacheDirty = false`, so on failure the state is
returned unchanged. -/
def saveKeys (oracle : FlushOracle) (st : KeysState) :
    Except String Unit × KeysState :=
  if !st.dirty then (.ok (), st)
  else
    match oracle.fetchResult with
    | .error e => (.error e, st)
    | .ok _existingKeys =>
      let nChunks := (SHA256.chunks 100 st.cache).length
      match firstUpsertError oracle nChunks with
      | some e => (.error e, st)
      | none => (.ok (), { st with dirty := false })

/-- A batch of key mutations as passed to `state.keys.set`: `none` deletes
the entry, `some` inserts or updates it. -/
abbrev KeyMutations := List (CacheKey × Option Nat)

/-- The cache after applying the mutation loop of `set`. -/
def applyMutations (cache : List (CacheKey × Nat)) (data : KeyMutations) :
    List (CacheKey × Nat) :=
  data.foldl
    (fun c (kv : CacheKey × Option Nat) =>
      match kv.2 with
      | none => cacheDel c kv.1
      | some v => cacheSet c kv.1 v)
    cache

/-- Whether the mutation loop of `set` reports any change (`hasChanges`):
a deletion counts only when the entry was present; an insertion or update
always counts. -/
def mutationsChange (cache : List (CacheKey × Nat)) (data : KeyMutations) : Bool :=
  (data.foldl
    (fun (acc : List (CacheKey × Nat) × Bool) (kv : CacheKey × Option Nat) =>
      match kv.2 with
      | none =>
        if (cacheGet acc.1 kv.1).isSome then (cacheDel acc.1 kv.1, true)
        else (acc.1, acc.2)
      | some v => (cacheSet acc.1 kv.1 v, true))
    (cache, false)).2

/-- Model of `state.keys.set`: apply the mutations to the cache; if anything
changed, mark the cache dirty and flush immediately via `saveKeys`,
propagating its error. -/
def keysSet (oracle : FlushOracle) (st : KeysState) (data : KeyMutations) :
    Except String Unit × KeysState :=
  let newCache := applyMutations st.cache data
  if mutationsChange st.cache data then
    saveKeys oracle { st with cache := newCache, dirty := true }
  else (.ok (), st)

end SupabaseAuthState

namespace WhatsAppService

/-- Baileys `DisconnectReason.loggedOut`. -/
def loggedOutCode : Nat := 401

/-- Baileys `DisconnectReason.connectionReplaced`. -/
def connectionReplacedCode : Nat := 440

/-- What the `connection === "close"` branch of `handleConnectionUpdate`
(src/unnamed/part_011) does after recording the closed state. -/
inductive CloseAction where
  | noAction
  | logoutTeardown
  | reconnectAfter (delayMs : Nat)
deriving DecidableEq, Repr

/-- Model of the close-classification of `handleConnectionUpdate`: the input
is `lastDisconnect?.error` as `none` (no error object) or `some statusCode`
with `statusCode = (error as Boom)?.output?.statusCode`.  Logged-out and
replaced/conflict codes purge auth and notify the registry; every other
errored close schedules `startConnection` after a fixed 3000 ms delay —
the handler keeps no attempt counter, so the decision never depends on how
many reconnects came before. -/
def classifyClose (disconnectError : Option (Option Nat)) : CloseAction :=
  match disconnectError with
  | none => .noAction
  | some statusCode =>
    if statusCode = some loggedOutCode then .logoutTeardown
    else if statusCode = some 440 then .logoutTeardown
    else if statusCode = some connectionReplacedCode then .logoutTeardown
    else .reconnectAfter 3000

/-- Connection state field of the session. -/
inductive ConnState where
  | close
  | connecting
  | opened
deriving DecidableEq, Repr

/-- Local state of a `WhatsAppService` session (src/unnamed/part_011),
restricted to the fields `handleLogout` touches.  `opened` stands for the
source literal `"open"`. -/
structure SessionState where
  connectionState : ConnState
  isAuthenticated : Bool
  latestQR : Option String
  targetGroups : List String
  authState : Option Unit
  sockPresent : Bool
deriving DecidableEq, Repr

/-- Remote auth rows: which tenants have a `whatsapp_auth_creds` row, and
the `whatsapp_auth_keys` rows as (tenant, (key type, key id)). -/
structure AuthDb where
  creds : List String
  keys : List (String × SupabaseAuthState.CacheKey)
deriving DecidableEq, Repr

/-- Model of `cleanup`: drop the socket and reset the connection flags; its
own try/catch means it never throws. -/
def cleanup (st : SessionState) : SessionState :=
  { st with sockPresent := false, connectionState := .close, isAuthenticated := false }

/-- Model of `handleLogout`: clean up the socket, delete the tenant's
credential row and key rows — each delete reports failure by value through
the returned `error` field, which the source only logs — then reset all
local session state.  The function is total: with store failures reported by
value (the Supabase client API) nothing in the body throws, and the outer
try/catch would swallow an exception anyway. -/
def handleLogout (delCredsError delKeysError : Option String) (userId : String)
    (st : SessionState) (db : AuthDb) : SessionState × AuthDb :=
  let st1 := cleanup st
  let db1 :=
    if delCredsError.isSome then db
    else { db with creds := db.creds.filter (fun u => u ≠ userId) }
  let db2 :=
    if delKeysError.isSome then db1
    else { db1 with keys := db1.keys.filter (fun k => k.1 ≠ userId) }
  ({ st1 with
      connectionState := .close
      isAuthenticated := false
      latestQR := none
      targetGroups := []
      authState := none }, db2)

end WhatsAppService

namespace LegacyWhatsAppService

/-- `maxReconnectAttempts` of the legacy `WhatsAppService`
(src/src/services/whatsapp-service.ts). -/
def maxReconnectAttempts : Nat := 5

/-- `reconnectDelay` (ms) of the legacy `WhatsAppService`. -/
def reconnectDelay : Nat := 5000

/-- Model of the legacy `scheduleReconnect`: give up once the attempt
counter reaches the cap, otherwise bump it and schedule after
`reconnectDelay * 2 ^ (attempts - 1)` ms (exponential backoff).  Returns the
new counter and the delay, or `none` when no reconnect is scheduled. -/
def scheduleReconnect (reconnectAttempts : Nat) : Option (Nat × Nat) :=
  if reconnectAttempts ≥ maxReconnectAttempts then none
  else
    let a := reconnectAttempts + 1
    some (a, reconnectDelay * 2 ^ (a - 1))

end LegacyWhatsAppService

/-!
Theorems settling the claims.  Each claim has exactly one theorem; witnesses
instantiate theorems that carry hypotheses at concrete inputs.
-/

/-- Claim C1.  The claim states that `PropertyMessageFilter.filterMessage`
is a pure, deterministic function: identical input text always yields
identical results, in particular identical `isPropertyListing` and
`confidence`.  The code violates this: the pattern arrays are `static
readonly` `RegExp` objects with the `g` flag, so `pattern.test(text)`
advances the shared `lastIndex`.  On the text
`"flat apartment house basement"` the first call matches the floor family
(`/basement/gi`, confidence `0.30`), which strands `lastIndex` at the end of
the text, and the immediately following identical call fails the floor
family and returns confidence `0.25`.  This theorem evaluates the model of
the code at that failing input. -/
theorem C1_filterMessage_stateful :
    (PropertyMessageFilter.filterMessage "flat apartment house basement"
        PropertyMessageFilter.initRegexState).1.confidence100 = 30 ∧
    (PropertyMessageFilter.filterMessage "flat apartment house basement"
        (PropertyMessageFilter.filterMessage "flat apartment house basement"
          PropertyMessageFilter.initRegexState).2).1 ≠
      (PropertyMessageFilter.filterMessage "flat apartment house basement"
        PropertyMessageFilter.initRegexState).1 ∧
    (PropertyMessageFilter.filterMessage "flat apartment house basement"
        (PropertyMessageFilter.filterMessage "flat apartment house basement"
          PropertyMessageFilter.initRegexState).2).1.confidence100 = 25 := by
  decide

set_option maxRecDepth 100000 in
/-- Claim C4, counterexample.  The claim asserts that the sender-paired
texts `"Flat available!!"` and `"flat available"` get the same
`createMessageHash` and that the second message is rejected as a duplicate.
The hash normalization only trims, lower-cases and collapses whitespace —
punctuation is preserved — so the two hash inputs differ, the SHA-256
digests differ, and after storing the first message the second is inserted
rather than rejected. -/
theorem C4_cex_punctuation_hashes_differ :
    WhatsAppService.createMessageHash "Flat available!!" "sender-1" ≠
      WhatsAppService.createMessageHash "flat available" "sender-1" ∧
    (WhatsAppService.handleMessageStorage "tenant-1" "flat available" "sender-1"
        true
        (WhatsAppService.handleMessageStorage "tenant-1" "Flat available!!"
          "sender-1" true [] "grp").2
        "grp").1 = true := by
  decide

set_option maxRecDepth 100000 in
/-- Claim C4, amended.  Two inbound messages from the same sender whose
texts differ only in whitespace and case — here `"Flat  AVAILABLE"` and
`"flat available"` — produce the same `createMessageHash`, and the second
message is rejected as a duplicate (not stored a second time for that
tenant); the original pair `"Flat available!!"` / `"flat available"`
differs in punctuation, which the normalization preserves, so those two
hashes differ and the second of them is stored. -/
theorem C4_amended_ws_case_dedup :
    WhatsAppService.createMessageHash "Flat  AVAILABLE" "sender-1" =
      WhatsAppService.createMessageHash "flat available" "sender-1" ∧
    (WhatsAppService.handleMessageStorage "tenant-1" "flat available" "sender-1"
        true
        (WhatsAppService.handleMessageStorage "tenant-1" "Flat  AVAILABLE"
          "sender-1" true [] "grp").2
        "grp").1 = false := by
  decide

/-- Claim C9.  `handleLogout` never throws (it is a total function of its
inputs, with store deletes reporting failure by value) and always resets
the local session state — connection state `close`, unauthenticated, QR
cleared, target groups emptied, auth state and socket dropped — even when
the remote deletes of the credential row or key rows fail; a failed delete
leaves the corresponding remote rows untouched, so the store may still hold
the tenant's credentials while the session reports logged-out. -/
theorem C9_handleLogout_total_reset (delCredsError delKeysError : Option String)
    (userId : String) (st : WhatsAppService.SessionState)
    (db : WhatsAppService.AuthDb) :
    ((WhatsAppService.handleLogout delCredsError delKeysError userId st db).1.connectionState
        = WhatsAppService.ConnState.close) ∧
    (WhatsAppService.handleLogout delCredsError delKeysError userId st db).1.isAuthenticated
        = false ∧
    (WhatsAppService.handleLogout delCredsError delKeysError userId st db).1.latestQR
        = none ∧
    (WhatsAppService.handleLogout delCredsError delKeysError userId st db).1.targetGroups
        = [] ∧
    (WhatsAppService.handleLogout delCredsError delKeysError userId st db).1.authState
        = none ∧
    (WhatsAppService.handleLogout delCredsError delKeysError userId st db).1.sockPresent
        = false ∧
    (delCredsError.isSome →
      (WhatsAppService.handleLogout delCredsError delKeysError userId st db).2.creds
        = db.creds) ∧
    (delKeysError.isSome →
      (WhatsAppService.handleLogout delCredsError delKeysError userId st db).2.keys
        = db.keys) := by
  cases delCredsError <;> cases delKeysError <;>
    simp [WhatsAppService.handleLogout, WhatsAppService.cleanup]

/-- Witness for C9: a concrete logout in which both deletes fail leaves the
remote credential row of the tenant in place while the local state is fully
reset. -/
theorem C9_handleLogout_witness :
    ((WhatsAppService.handleLogout (some "boom") (some "boom2") "tenant-1"
        ⟨WhatsAppService.ConnState.opened, true, some "qr", ["g1"], some (), true⟩
        ⟨["tenant-1"], [("tenant-1", ("session", "1"))]⟩).1.connectionState
      = WhatsAppService.ConnState.close) ∧
    (WhatsAppService.handleLogout (some "boom") (some "boom2") "tenant-1"
        ⟨WhatsAppService.ConnState.opened, true, some "qr", ["g1"], some (), true⟩
        ⟨["tenant-1"], [("tenant-1", ("session", "1"))]⟩).2.creds = ["tenant-1"] := by
  have h := C9_handleLogout_total_reset (some "boom") (some "boom2") "tenant-1"
    ⟨WhatsAppService.ConnState.opened, true, some "qr", ["g1"], some (), true⟩
    ⟨["tenant-1"], [("tenant-1", ("session", "1"))]⟩
  exact ⟨h.1, (h.2.2.2.2.2.2.1 (by decide)).trans rfl⟩

/-- Claim C10.  Deduplication is best-effort under store failures: when the
duplicate-lookup query errors, `checkForDuplicateMessage` returns `null`,
which `handleMessage` cannot distinguish from the absence of a duplicate,
so the inbound message is inserted anyway (even if a row with the same
content hash exists); when the lookup succeeds and a duplicate row exists,
the message is not inserted, so at-most-once storage holds exactly on runs
with a successful duplicate check. -/
theorem C10_dedup_best_effort (rows : List WhatsAppService.MsgRow)
    (userId messageText sender groupName : String) :
    WhatsAppService.checkForDuplicateMessage false rows
        (WhatsAppService.createMessageHash messageText sender) userId = none ∧
    (WhatsAppService.handleMessageStorage userId messageText sender false rows
        groupName).1 = true ∧
    (∀ r ∈ rows, r.user_id = userId →
      r.message_hash = WhatsAppService.createMessageHash messageText sender →
      (WhatsAppService.handleMessageStorage userId messageText sender true rows
        groupName).1 = false) := by
  refine ⟨rfl, rfl, ?_⟩
  intro r hr huid hhash
  have hmem : r ∈ rows.filter (fun q =>
      q.user_id == userId &&
        q.message_hash == WhatsAppService.createMessageHash messageText sender) := by
    refine List.mem_filter.mpr ⟨hr, ?_⟩
    simp [huid, hhash]
  unfold WhatsAppService.handleMessageStorage WhatsAppService.checkForDuplicateMessage
  rcases hhead : (rows.filter (fun q =>
      q.user_id == userId &&
        q.message_hash == WhatsAppService.createMessageHash messageText sender)).head? with
    _ | row
  · rcases List.head?_eq_none_iff.mp hhead ▸ hmem
  · simp [hhead]

/-- Witness for C10: with the store erroring, a message whose hash already
appears in the table is inserted a second time; with the store healthy it is
rejected. -/
theorem C10_dedup_witness :
    (⟨"tenant-1", WhatsAppService.createMessageHash "flat available" "sender-1",
        "grp"⟩ : WhatsAppService.MsgRow) ∈
      ([⟨"tenant-1", WhatsAppService.createMessageHash "flat available" "sender-1",
        "grp"⟩] : List WhatsAppService.MsgRow) ∧
    (WhatsAppService.handleMessageStorage "tenant-1" "flat available" "sender-1"
        false
        [⟨"tenant-1", WhatsAppService.createMessageHash "flat available" "sender-1",
          "grp"⟩] "grp").1 = true ∧
    (WhatsAppService.handleMessageStorage "tenant-1" "flat available" "sender-1"
        true
        [⟨"tenant-1", WhatsAppService.createMessageHash "flat available" "sender-1",
          "grp"⟩] "grp").1 = false := by
  have h := C10_dedup_best_effort
    [⟨"tenant-1", WhatsAppService.createMessageHash "flat available" "sender-1",
      "grp"⟩] "tenant-1" "flat available" "sender-1" "grp"
  exact ⟨List.mem_singleton.mpr rfl, h.2.1,
    h.2.2 _ (List.mem_singleton.mpr rfl) rfl rfl⟩

/-- Claim C5, counterexample.  The claim asserts that after a transient
disconnect the session reconnects after a fixed short delay with no
exponential backoff, and that consecutive automatic attempts are capped,
after which no reconnect is scheduled.  No implementation satisfies both
conjuncts: the legacy `scheduleReconnect` delays grow exponentially (5000 ms
then 10000 ms), and the current close handler keeps no attempt counter, so
even the 100th consecutive transient disconnect still schedules a reconnect
(3000 ms) — in particular the only cap constant in the source, 5, is
exceeded. -/
theorem C5_cex_no_fixed_delay_with_cap :
    LegacyWhatsAppService.scheduleReconnect 0 = some (1, 5000) ∧
    LegacyWhatsAppService.scheduleReconnect 1 = some (2, 10000) ∧
    ((List.range 100).map
        (fun _ => WhatsAppService.classifyClose (some (some 500)))).all
      (fun a => a = WhatsAppService.CloseAction.reconnectAfter 3000) = true := by
  decide

/-- Claim C5, amended.  After a transient (non-logout, non-conflict)
disconnect the current session (src/unnamed/part_011) schedules a reconnect
after a fixed 3000 ms delay with no exponential backoff and no cap: the
handler keeps no attempt counter, so a reconnect is scheduled on every
transient errored close and the session never requires a manual reconnect;
the legacy session (src/src/services/whatsapp-service.ts) instead caps
consecutive attempts at 5, after which no reconnect is scheduled, but its
delay grows exponentially as `5000 * 2 ^ (attempt - 1)` ms. -/
theorem C5_amended_reconnect_policies (statusCode : Option Nat) (n : Nat)
    (hterm : statusCode ≠ some WhatsAppService.loggedOutCode ∧
      statusCode ≠ some 440) :
    WhatsAppService.classifyClose (some statusCode) =
      WhatsAppService.CloseAction.reconnectAfter 3000 ∧
    (5 ≤ n → LegacyWhatsAppService.scheduleReconnect n = none) ∧
    (n < 5 → LegacyWhatsAppService.scheduleReconnect n = some (n + 1, 5000 * 2 ^ n)) := by
  refine ⟨?_, ?_, ?_⟩
  · simp only [WhatsAppService.classifyClose, WhatsAppService.loggedOutCode,
      WhatsAppService.connectionReplacedCode] at hterm ⊢
    rw [if_neg hterm.1, if_neg hterm.2, if_neg hterm.2]
  · intro hn
    simp only [LegacyWhatsAppService.scheduleReconnect,
      LegacyWhatsAppService.maxReconnectAttempts]
    rw [if_pos hn]
  · intro hn
    simp only [LegacyWhatsAppService.scheduleReconnect,
      LegacyWhatsAppService.maxReconnectAttempts, LegacyWhatsAppService.reconnectDelay]
    rw [if_neg (by omega)]
    simp

/-- Witness for C5: a transient status code 500 at the sixth consecutive
attempt still reconnects after 3000 ms in the current session, while the
legacy scheduler has given up. -/
theorem C5_amended_witness :
    ((some 500 : Option Nat) ≠ some WhatsAppService.loggedOutCode ∧
      (some 500 : Option Nat) ≠ some 440) ∧
    WhatsAppService.classifyClose (some (some 500)) =
      WhatsAppService.CloseAction.reconnectAfter 3000 ∧
    LegacyWhatsAppService.scheduleReconnect 5 = none := by
  refine ⟨by decide, ?_, ?_⟩
  · exact (C5_amended_reconnect_policies (some 500) 5 (by decide)).1
  · exact (C5_amended_reconnect_policies (some 500) 5 (by decide)).2.1 (by decide)

/-- A failed flush leaves the synchronizer state untouched: `saveKeys` only
clears the dirty flag after every remote step has succeeded, so an error
outcome implies the state is returned unchanged and was dirty. -/
theorem saveKeys_error_frame (oracle : SupabaseAuthState.FlushOracle)
    (st : SupabaseAuthState.KeysState) (e : String)
    (st2 : SupabaseAuthState.KeysState)
    (h : SupabaseAuthState.saveKeys oracle st = (.error e, st2)) :
    st2 = st ∧ st.dirty = true := by
  unfold SupabaseAuthState.saveKeys at h
  by_cases hd : st.dirty
  · rw [hd] at h
    simp only [Bool.not_true, Bool.false_eq_true, if_false] at h
    rcases hfetch : oracle.fetchResult with e0 | keys
    · rw [hfetch] at h
      exact ⟨(Prod.mk.injEq .. ▸ h).2.symm, hd⟩
    · rw [hfetch] at h
      rcases hup : SupabaseAuthState.firstUpsertError oracle
          (SHA256.chunks 100 st.cache).length with _ | e0
      · rw [hup] at h
        exact absurd (Prod.mk.injEq .. ▸ h).1 (by simp)
      · rw [hup] at h
        exact ⟨(Prod.mk.injEq .. ▸ h).2.symm, hd⟩
  · rw [Bool.not_eq_true] at hd
    rw [hd] at h
    simp only [Bool.not_false, if_true] at h
    exact absurd (Prod.mk.injEq .. ▸ h).1 (by simp)

/-- Claim C7.  If a flush of the key cache to the remote store fails at any
point (on the initial fetch of the remote key set or on any upsert chunk),
the error is surfaced to the caller — `saveKeys` and `set` return it — the
in-memory cache is exactly what it was just before the flush started (for
`set`, the cache with the batch mutations applied, since `set` mutates the
cache before flushing), and the cache remains marked dirty, so a later
flush retry can still persist the same entries. -/
theorem C7_flush_failure_preserves_cache (oracle : SupabaseAuthState.FlushOracle)
    (st : SupabaseAuthState.KeysState) :
    (∀ e st2, SupabaseAuthState.saveKeys oracle st = (.error e, st2) →
      st2 = st ∧ st.dirty = true) ∧
    (∀ data e st2, SupabaseAuthState.keysSet oracle st data = (.error e, st2) →
      st2.cache = SupabaseAuthState.applyMutations st.cache data ∧
        st2.dirty = true) := by
  constructor
  · intro e st2 h
    exact saveKeys_error_frame oracle st e st2 h
  · intro data e st2 h
    unfold SupabaseAuthState.keysSet at h
    by_cases hch : SupabaseAuthState.mutationsChange st.cache data
    · rw [if_pos hch] at h
      have := saveKeys_error_frame oracle
        { st with cache := SupabaseAuthState.applyMutations st.cache data, dirty := true }
        e st2 h
      rw [this.1]
      exact ⟨rfl, rfl⟩
    · rw [if_neg hch] at h
      exact absurd (Prod.mk.injEq .. ▸ h).1 (by simp)

/-- Witness for C7: a flush whose remote fetch fails returns the error and
the unchanged dirty state, both for a direct `saveKeys` and for a `set`
that inserted one entry. -/
theorem C7_flush_failure_witness :
    SupabaseAuthState.saveKeys ⟨.error "boom", fun _ => none⟩
        ⟨[(("session", "1"), 7)], true⟩ =
      (.error "boom", ⟨[(("session", "1"), 7)], true⟩) ∧
    (⟨[(("session", "1"), 7)], true⟩ : SupabaseAuthState.KeysState) =
        ⟨[(("session", "1"), 7)], true⟩ ∧
      (⟨[(("session", "1"), 7)], true⟩ : SupabaseAuthState.KeysState).dirty = true := by
  have heq : SupabaseAuthState.saveKeys ⟨.error "boom", fun _ => none⟩
      ⟨[(("session", "1"), 7)], true⟩ =
      (.error "boom", ⟨[(("session", "1"), 7)], true⟩) := rfl
  exact ⟨heq,
    (C7_flush_failure_preserves_cache ⟨.error "boom", fun _ => none⟩
      ⟨[(("session", "1"), 7)], true⟩).1 "boom" _ heq⟩

/-- The property-type block does not touch the listing type. -/
theorem normPropertyType_listing (d : GroqParser.ParsedRealEstateData) :
    (GroqParser.normPropertyType d).listing_type = d.listing_type := by
  unfold GroqParser.normPropertyType
  split <;> rfl

/-- The furnishing block does not touch the listing type. -/
theorem normFurnishing_listing (d : GroqParser.ParsedRealEstateData) :
    (GroqParser.normFurnishing d).listing_type = d.listing_type := by
  unfold GroqParser.normFurnishing
  split <;> rfl

/-- The confidence clamp does not touch the listing type. -/
theorem clampConfidence_listing (d : GroqParser.ParsedRealEstateData) :
    (GroqParser.clampConfidence d).listing_type = d.listing_type := by
  unfold GroqParser.clampConfidence
  split
  · split
    · rfl
    · split <;> rfl
  · rfl

/-- The numeric-field cleanup does not touch the listing type. -/
theorem coerceNumericFields_listing (d : GroqParser.ParsedRealEstateData) :
    (GroqParser.coerceNumericFields d).listing_type = d.listing_type := rfl

/-- The parking split does not touch the listing type. -/
theorem normParking_listing (d : GroqParser.ParsedRealEstateData) :
    (GroqParser.normParking d).listing_type = d.listing_type := by
  unfold GroqParser.normParking
  split
  · split <;> rfl
  · rfl
  · rfl
  · rfl

/-- After the listing-type block, the listing type is either null or a
member of the recognized set. -/
theorem normListingType_shape (d : GroqParser.ParsedRealEstateData) :
    (GroqParser.normListingType d).listing_type = none ∨
    ∃ lt, (GroqParser.normListingType d).listing_type = some lt ∧
      lt ∈ GroqParser.validListingTypes := by
  unfold GroqParser.normListingType
  split
  · exact .inl rfl
  next hcond =>
    right
    rcases hlt : d.listing_type with _ | s
    · rw [hlt] at hcond
      simp [GroqParser.truthyStr] at hcond
    · rw [hlt] at hcond
      simp [GroqParser.truthyStr, GroqParser.validListingTypes] at hcond
      refine ⟨s, rfl, ?_⟩
      simp only [GroqParser.validListingTypes]
      by_cases h1 : s = "sale"
      · simp [h1]
      · by_cases h2 : s = "rental"
        · simp [h2]
        · simp [hcond.2 h1 h2]

/-- A normalized candidate has a listing type that is null or recognized. -/
theorem validateAndNormalizeData_listing (d : GroqParser.ParsedRealEstateData) :
    (GroqParser.validateAndNormalizeData d).listing_type = none ∨
    ∃ lt, (GroqParser.validateAndNormalizeData d).listing_type = some lt ∧
      lt ∈ GroqParser.validListingTypes := by
  unfold GroqParser.validateAndNormalizeData
  rw [normParking_listing, coerceNumericFields_listing, clampConfidence_listing,
    normFurnishing_listing, normPropertyType_listing]
  exact normListingType_shape d

/-- What passing the persistence gate means: a truthy listing type and a
present confidence strictly above `3/10`. -/
theorem saveGate_spec (p : GroqParser.ParsedRealEstateData)
    (h : RealEstateParsingJob.saveGate p = true) :
    GroqParser.truthyStr p.listing_type = true ∧
    ∃ c, p.parsing_confidence = some c ∧ c > mkRat 3 10 := by
  unfold RealEstateParsingJob.saveGate at h
  rw [Bool.and_eq_true] at h
  refine ⟨h.1, ?_⟩
  rcases hc : p.parsing_confidence with _ | c
  · rw [hc] at h
    exact absurd h.2 (by simp)
  · have h2 := h.2
    rw [hc] at h2
    simp only [Bool.and_eq_true, decide_eq_true_eq] at h2
    exact ⟨c, rfl, h2.2⟩

/-- Every record accumulated by the per-message handler comes from the
initial accumulator or from the gate-filtered candidates of some processed
pair. -/
theorem handleResult_foldl_stored
    (l : List (RealEstateParsingJob.Msg × List GroqParser.ParsedRealEstateData))
    (init : RealEstateParsingJob.JobOutcome)
    (sp : RealEstateParsingJob.StoredProperty)
    (h : sp ∈ (l.foldl RealEstateParsingJob.handleResult init).stored) :
    sp ∈ init.stored ∨
    ∃ mp, mp ∈ l ∧
      sp ∈ (mp.2.filter RealEstateParsingJob.saveGate).map
        (RealEstateParsingJob.saveParsedProperty mp.1.id mp.1.user_id) := by
  induction l generalizing init with
  | nil => exact .inl (by simpa using h)
  | cons x xs ih =>
    rcases ih (RealEstateParsingJob.handleResult init x) (by simpa using h) with
      h1 | ⟨mp, hmp, hsp⟩
    · obtain ⟨msg, props⟩ := x
      unfold RealEstateParsingJob.handleResult at h1
      simp only [List.mem_append] at h1
      rcases h1 with ha | hb
      · exact .inl ha
      · exact .inr ⟨(msg, props), List.mem_cons_self _ _, hb⟩
    · exact .inr ⟨mp, List.mem_cons_of_mem _ hmp, hsp⟩

/-- Folding the batch-failure step never records an extracted property. -/
theorem batchFailStep_foldl_stored (e : String)
    (l : List RealEstateParsingJob.Msg) (init : RealEstateParsingJob.JobOutcome) :
    (l.foldl (RealEstateParsingJob.batchFailStep e) init).stored = init.stored := by
  induction l generalizing init with
  | nil => rfl
  | cons x xs ih => exact (ih _).trans rfl

/-- Claim C2.  Every Extracted Property Record persisted by the extraction
job satisfies `parsing_confidence > 0.3` and has a non-null `listing_type`
drawn from the recognized set `sale`, `rental`, `lease`: for every batch and
every inference response, every stored record passed the gate after
normalization, which forces the recognized listing type, and candidates
failing the gate are discarded (nothing else reaches the store). -/
theorem C2_persisted_records_pass_gate (messages : List RealEstateParsingJob.Msg)
    (resp : List (List GroqParser.ParsedRealEstateData))
    (sp : RealEstateParsingJob.StoredProperty)
    (hsp : sp ∈ (RealEstateParsingJob.processUnprocessedMessages messages resp).stored) :
    (∃ lt, sp.listing_type = some lt ∧ lt ∈ GroqParser.validListingTypes) ∧
    sp.parsing_confidence > mkRat 3 10 := by
  simp only [RealEstateParsingJob.processUnprocessedMessages] at hsp
  split at hsp
  · simp at hsp
  · split at hsp
    · simp at hsp
    · simp only [] at hsp
      rcases hparse : GroqParser.parseRealEstateMessagesBatch
          ((messages.filter RealEstateParsingJob.hasText).map
            RealEstateParsingJob.Msg.message_text) resp with e | results
      · rw [hparse] at hsp
        rw [batchFailStep_foldl_stored] at hsp
        simp at hsp
      · rw [hparse] at hsp
        have hmem := handleResult_foldl_stored _ _ _ hsp
        rcases hmem with hinit | ⟨mp, hmp, hspm⟩
        · simp at hinit
        · obtain ⟨p, hpfilter, hpeq⟩ := List.mem_map.mp hspm
          obtain ⟨hpmem, hpgate⟩ := List.mem_filter.mp hpfilter
          -- mp.2 is one of the normalized result lists
          have hres : mp.2 ∈ results := (List.of_mem_zip hmp).2
          have hnorm : ∃ orig : List GroqParser.ParsedRealEstateData,
              mp.2 = orig.map GroqParser.validateAndNormalizeData := by
            unfold GroqParser.parseRealEstateMessagesBatch at hparse
            split at hparse
            · exact absurd hparse (by simp)
            · have hresults : results = resp.map
                  (fun properties => properties.map GroqParser.validateAndNormalizeData) :=
                (Except.ok.inj hparse).symm
              rw [hresults] at hres
              obtain ⟨orig, _, horig⟩ := List.mem_map.mp hres
              exact ⟨orig, horig.symm⟩
          obtain ⟨orig, horig⟩ := hnorm
          obtain ⟨d, _, hd⟩ := List.mem_map.mp (horig ▸ hpmem)
          obtain ⟨htruthy, c, hc, hcgt⟩ := saveGate_spec p hpgate
          constructor
          · rcases validateAndNormalizeData_listing d with hnone | ⟨lt, hsome, hlt⟩
            · rw [hd] at hnone
              rw [hnone] at htruthy
              exact absurd htruthy (by simp [GroqParser.truthyStr])
            · rw [hd] at hsome
              exact ⟨lt, by rw [← hpeq]; exact hsome, hlt⟩
          · rw [← hpeq]
            unfold RealEstateParsingJob.saveParsedProperty
            simp only [hc, Option.getD_some]
            exact hcgt

/-- Witness for C2: a one-message batch whose response carries a passing
sale candidate and a failing low-confidence candidate stores exactly the
passing one, which satisfies the gate. -/
theorem C2_persisted_records_witness :
    (⟨"m1", "u1", some "sale", mkRat 9 10⟩ : RealEstateParsingJob.StoredProperty) ∈
      (RealEstateParsingJob.processUnprocessedMessages
        [⟨"m1", "u1", "2 bhk for sale"⟩]
        [[{ listing_type := some "sale", parsing_confidence := some (mkRat 9 10) },
          { listing_type := some "rental", parsing_confidence := some (mkRat 2 10) }]]).stored ∧
    ((∃ lt, (⟨"m1", "u1", some "sale", mkRat 9 10⟩ :
        RealEstateParsingJob.StoredProperty).listing_type = some lt ∧
          lt ∈ GroqParser.validListingTypes) ∧
      (⟨"m1", "u1", some "sale", mkRat 9 10⟩ :
        RealEstateParsingJob.StoredProperty).parsing_confidence > mkRat 3 10) := by
  refine ⟨by decide, ?_⟩
  exact C2_persisted_records_pass_gate [⟨"m1", "u1", "2 bhk for sale"⟩]
    [[{ listing_type := some "sale", parsing_confidence := some (mkRat 9 10) },
      { listing_type := some "rental", parsing_confidence := some (mkRat 2 10) }]]
    ⟨"m1", "u1", some "sale", mkRat 9 10⟩ (by decide)

/-- Effect of the batch-failure fold on counters, errors and marked ids. -/
theorem batchFailStep_foldl_spec (e : String) (l : List RealEstateParsingJob.Msg)
    (init : RealEstateParsingJob.JobOutcome) :
    (l.foldl (RealEstateParsingJob.batchFailStep e) init).marked =
        init.marked ++ l.map RealEstateParsingJob.Msg.id ∧
    (l.foldl (RealEstateParsingJob.batchFailStep e) init).failed =
        init.failed + l.length ∧
    (l.foldl (RealEstateParsingJob.batchFailStep e) init).errors =
        init.errors ++ l.map (fun m =>
          "Batch processing failed for message " ++ m.id ++ ": " ++ e) := by
  induction l generalizing init with
  | nil => simp
  | cons x xs ih =>
    obtain ⟨h1, h2, h3⟩ := ih (RealEstateParsingJob.batchFailStep e init x)
    refine ⟨?_, ?_, ?_⟩
    · rw [List.foldl_cons, h1]
      simp [RealEstateParsingJob.batchFailStep]
    · rw [List.foldl_cons, h2]
      simp only [RealEstateParsingJob.batchFailStep, List.length_cons]
      omega
    · rw [List.foldl_cons, h3]
      simp [RealEstateParsingJob.batchFailStep]

/-- Claim C3.  When the inference capability returns a result count
different from the number of texts sent, the pass records an error for that
batch only and returns normally (the process and the recurring loop
survive, the model being a total function), every valid message of the
batch is counted failed, and afterwards every fetched Message Record of the
batch — with or without text — is marked processed, leaving zero
unprocessed messages from that batch (mark-processed store updates are
assumed to succeed, as the claim states). -/
theorem C3_count_mismatch_marks_all (messages : List RealEstateParsingJob.Msg)
    (resp : List (List GroqParser.ParsedRealEstateData))
    (hvalid : messages.filter RealEstateParsingJob.hasText ≠ [])
    (hmm : resp.length ≠ (messages.filter RealEstateParsingJob.hasText).length) :
    (RealEstateParsingJob.processUnprocessedMessages messages resp).errors ≠ [] ∧
    (RealEstateParsingJob.processUnprocessedMessages messages resp).failed =
      (messages.filter RealEstateParsingJob.hasText).length ∧
    ∀ m ∈ messages,
      m.id ∈ (RealEstateParsingJob.processUnprocessedMessages messages resp).marked := by
  have hmsgs : messages.isEmpty = false := by
    cases messages
    · simp at hvalid
    · rfl
  have hvalidB : (messages.filter RealEstateParsingJob.hasText).isEmpty = false := by
    rcases h : messages.filter RealEstateParsingJob.hasText with _ | ⟨x, xs⟩
    · exact absurd h hvalid
    · rfl
  obtain ⟨e, he⟩ : ∃ e, GroqParser.parseRealEstateMessagesBatch
      ((messages.filter RealEstateParsingJob.hasText).map
        RealEstateParsingJob.Msg.message_text) resp = .error e := by
    unfold GroqParser.parseRealEstateMessagesBatch
    rw [if_pos (by simpa using hmm)]
    exact ⟨_, rfl⟩
  have hout : RealEstateParsingJob.processUnprocessedMessages messages resp =
      { ((messages.filter RealEstateParsingJob.hasText).foldl
          (RealEstateParsingJob.batchFailStep e) {}) with
        marked := ((messages.filter RealEstateParsingJob.hasText).foldl
          (RealEstateParsingJob.batchFailStep e) {}).marked ++
            (messages.filter (fun m => !RealEstateParsingJob.hasText m)).map
              RealEstateParsingJob.Msg.id } := by
    simp only [RealEstateParsingJob.processUnprocessedMessages, hmsgs, hvalidB,
      Bool.false_eq_true, if_false, he]
  obtain ⟨hmk, hfl, herr⟩ := batchFailStep_foldl_spec e
    (messages.filter RealEstateParsingJob.hasText) {}
  refine ⟨?_, ?_, ?_⟩
  · rw [hout]
    show ((messages.filter RealEstateParsingJob.hasText).foldl
      (RealEstateParsingJob.batchFailStep e) {}).errors ≠ []
    rw [herr]
    rcases h : messages.filter RealEstateParsingJob.hasText with _ | ⟨x, xs⟩
    · exact absurd h hvalid
    · simp
  · rw [hout]
    show ((messages.filter RealEstateParsingJob.hasText).foldl
      (RealEstateParsingJob.batchFailStep e) {}).failed =
        (messages.filter RealEstateParsingJob.hasText).length
    rw [hfl]
    simp
  · intro m hm
    rw [hout]
    show m.id ∈ ((messages.filter RealEstateParsingJob.hasText).foldl
      (RealEstateParsingJob.batchFailStep e) {}).marked ++
        (messages.filter (fun m => !RealEstateParsingJob.hasText m)).map
          RealEstateParsingJob.Msg.id
    by_cases ht : RealEstateParsingJob.hasText m
    · refine List.mem_append_left _ ?_
      rw [hmk]
      exact List.mem_append_right _
        (List.mem_map_of_mem _ (List.mem_filter.mpr ⟨hm, ht⟩))
    · refine List.mem_append_right _ ?_
      exact List.mem_map_of_mem _
        (List.mem_filter.mpr ⟨hm, by simpa using ht⟩)

/-- Witness for C3: a two-message batch (one with text, one blank) whose
inference response has the wrong count (zero results for one text) records
an error yet leaves both messages marked processed. -/
theorem C3_count_mismatch_witness :
    (([⟨"m1", "u1", "2 bhk flat for sale"⟩, ⟨"m2", "u1", " "⟩] :
        List RealEstateParsingJob.Msg).filter RealEstateParsingJob.hasText ≠ [] ∧
      ([] : List (List GroqParser.ParsedRealEstateData)).length ≠
        (([⟨"m1", "u1", "2 bhk flat for sale"⟩, ⟨"m2", "u1", " "⟩] :
          List RealEstateParsingJob.Msg).filter RealEstateParsingJob.hasText).length) ∧
    "m1" ∈ (RealEstateParsingJob.processUnprocessedMessages
      [⟨"m1", "u1", "2 bhk flat for sale"⟩, ⟨"m2", "u1", " "⟩] []).marked ∧
    "m2" ∈ (RealEstateParsingJob.processUnprocessedMessages
      [⟨"m1", "u1", "2 bhk flat for sale"⟩, ⟨"m2", "u1", " "⟩] []).marked := by
  refine ⟨⟨by decide, by decide⟩, ?_, ?_⟩
  · exact (C3_count_mismatch_marks_all
      [⟨"m1", "u1", "2 bhk flat for sale"⟩, ⟨"m2", "u1", " "⟩] []
      (by decide) (by decide)).2.2 ⟨"m1", "u1", "2 bhk flat for sale"⟩ (by decide)
  · exact (C3_count_mismatch_marks_all
      [⟨"m1", "u1", "2 bhk flat for sale"⟩, ⟨"m2", "u1", " "⟩] []
      (by decide) (by decide)).2.2 ⟨"m2", "u1", " "⟩ (by decide)

/-- Deleting one key from the registry map leaves other keys untouched. -/
theorem alGet_alDel_ne (m : List (String × α)) (k u : String) (h : u ≠ k) :
    ServiceManager.alGet (ServiceManager.alDel m k) u = ServiceManager.alGet m u := by
  induction m with
  | nil => rfl
  | cons p ps ih =>
    unfold ServiceManager.alDel at *
    by_cases hp : p.1 = k
    · rw [List.filter_cons]
      simp only [hp, bne_self_eq_false, Bool.false_eq_true, if_false]
      rw [ih]
      unfold ServiceManager.alGet
      rw [List.find?_cons_of_neg _ (by simp [hp, Ne.symm h])]
    · rw [List.filter_cons]
      simp only [bne_iff_ne, ne_eq, hp, not_false_eq_true, if_true]
      unfold ServiceManager.alGet at *
      by_cases hpu : p.1 = u
      · rw [List.find?_cons_of_pos _ (by simp [hpu]),
          List.find?_cons_of_pos _ (by simp [hpu])]
      · rw [List.find?_cons_of_neg _ (by simp [hpu]),
          List.find?_cons_of_neg _ (by simp [hpu])]
        exact ih

/-- Deleting a key removes it. -/
theorem alGet_alDel_self (m : List (String × α)) (k : String) :
    ServiceManager.alGet (ServiceManager.alDel m k) k = none := by
  induction m with
  | nil => rfl
  | cons p ps ih =>
    unfold ServiceManager.alDel at *
    rw [List.filter_cons]
    by_cases hp : p.1 = k
    · simp only [hp, bne_self_eq_false, Bool.false_eq_true, if_false]
      exact ih
    · simp only [bne_iff_ne, ne_eq, hp, not_false_eq_true, if_true]
      unfold ServiceManager.alGet at *
      rw [List.find?_cons_of_neg _ (by simp [hp])]
      exact ih

/-- The in-place key update of `alSet` does not change lookups of other
keys. -/
theorem find?_keyupdate_ne (m : List (String × α)) (k u : String) (v : α)
    (h : u ≠ k) :
    List.find? (fun p => p.1 == u)
        (m.map (fun p => if p.1 == k then (k, v) else p)) =
      List.find? (fun p => p.1 == u) m := by
  induction m with
  | nil => rfl
  | cons p ps ih =>
    rw [List.map_cons]
    by_cases hp : p.1 = k
    · rw [if_pos (by simp [hp])]
      rw [List.find?_cons_of_neg _ (by simp [Ne.symm h]),
        List.find?_cons_of_neg _ (by simp [hp, Ne.symm h])]
      exact ih
    · rw [if_neg (by simp [hp])]
      by_cases hpu : p.1 = u
      · rw [List.find?_cons_of_pos _ (by simp [hpu]),
          List.find?_cons_of_pos _ (by simp [hpu])]
      · rw [List.find?_cons_of_neg _ (by simp [hpu]),
          List.find?_cons_of_neg _ (by simp [hpu])]
        exact ih

/-- After the in-place key update, the updated key maps to the new value
provided it was present. -/
theorem find?_keyupdate_self (m : List (String × α)) (k : String) (v : α)
    (hfind : (List.find? (fun p => p.1 == k) m).isSome = true) :
    List.find? (fun p => p.1 == k)
        (m.map (fun p => if p.1 == k then (k, v) else p)) = some (k, v) := by
  induction m with
  | nil => simp at hfind
  | cons p ps ih =>
    rw [List.map_cons]
    by_cases hp : p.1 = k
    · rw [if_pos (by simp [hp])]
      rw [List.find?_cons_of_pos _ (by simp)]
    · rw [if_neg (by simp [hp])]
      rw [List.find?_cons_of_neg _ (by simp [hp])]
      rw [List.find?_cons_of_neg _ (by simp [hp])] at hfind
      exact ih hfind

/-- Setting one key leaves other keys untouched. -/
theorem alGet_alSet_ne (m : List (String × α)) (k u : String) (v : α) (h : u ≠ k) :
    ServiceManager.alGet (ServiceManager.alSet m k v) u = ServiceManager.alGet m u := by
  unfold ServiceManager.alSet
  split
  · unfold ServiceManager.alGet
    rw [find?_keyupdate_ne _ _ _ _ h]
  · unfold ServiceManager.alGet
    rw [List.find?_append]
    rcases hm : List.find? (fun p => p.1 == u) m with _ | q
    · rw [hm]
      simp [Ne.symm h]
    · rw [hm]
      simp

/-- Setting a key makes it present with the written value. -/
theorem alGet_alSet_self (m : List (String × α)) (k : String) (v : α) :
    ServiceManager.alGet (ServiceManager.alSet m k v) k = some v := by
  unfold ServiceManager.alSet
  split
  next hfind =>
    unfold ServiceManager.alGet
    rw [find?_keyupdate_self _ _ _ hfind]
    rfl
  next hfind =>
    unfold ServiceManager.alGet
    rw [List.find?_append]
    rcases hm : List.find? (fun p => p.1 == k) m with _ | q
    · rw [hm]
      simp
    · exact absurd (by simp [hm]) hfind

/-- Lookup after `removeUserService`: the removed tenant is gone, everyone
else is untouched (also when the tenant was absent). -/
theorem removeUserService_alGet (acc : ServiceManager.ManagerState) (k u : String) :
    ServiceManager.alGet (ServiceManager.removeUserService acc k).userServices u =
      if u = k then none else ServiceManager.alGet acc.userServices u := by
  unfold ServiceManager.removeUserService
  rcases h : ServiceManager.alGet acc.userServices k with _ | s
  · by_cases hk : u = k
    · rw [if_pos hk, hk]
      exact h
    · rw [if_neg hk]
  · by_cases hk : u = k
    · rw [if_pos hk, hk]
      exact alGet_alDel_self _ _
    · rw [if_neg hk]
      exact alGet_alDel_ne _ _ _ hk

/-- In a registry whose key list has no duplicates, every entry carrying the
looked-up key holds the looked-up value. -/
theorem alGet_unique (l : List (String × α)) (u : String) (v : α)
    (hnd : (l.map Prod.fst).Nodup) (h : ServiceManager.alGet l u = some v) :
    ∀ p ∈ l, p.1 = u → p.2 = v := by
  induction l with
  | nil => intro p hp; simp at hp
  | cons q qs ih =>
    rw [List.map_cons, List.nodup_cons] at hnd
    intro p hp hpu
    rcases List.mem_cons.mp hp with hq | hqs
    · subst hq
      unfold ServiceManager.alGet at h
      rw [List.find?_cons_of_pos _ (by simp [hpu])] at h
      simpa using h
    · by_cases hqu : q.1 = u
      · exact absurd (hqu ▸ hpu ▸ List.mem_map_of_mem Prod.fst hqs) hnd.1
      · unfold ServiceManager.alGet at h
        rw [List.find?_cons_of_neg _ (by simp [hqu])] at h
        exact ih hnd.2 h p hqs hpu

/-- The sweep fold never evicts a tenant whose entries are all connected. -/
theorem sweep_foldl_keeps (stO : ServiceManager.ManagerState) (now : Nat)
    (u : String) (svc : ServiceManager.ServiceInfo)
    (hconn : svc.isConnected = true)
    (es : List (String × ServiceManager.ServiceInfo))
    (acc : ServiceManager.ManagerState)
    (hes : ∀ p ∈ es, p.1 = u → p.2 = svc)
    (hacc : ServiceManager.alGet acc.userServices u = some svc) :
    ServiceManager.alGet
      ((es.foldl (ServiceManager.sweepStep stO now) acc).userServices) u = some svc := by
  induction es generalizing acc with
  | nil => exact hacc
  | cons p ps ih =>
    rw [List.foldl_cons]
    have hstep : ServiceManager.alGet
        ((ServiceManager.sweepStep stO now acc p).userServices) u = some svc := by
      simp only [ServiceManager.sweepStep]
      by_cases hpu : p.1 = u
      · have hp2 := hes p (List.mem_cons_self _ _) hpu
        rw [hp2, hconn]
        simp only [Bool.not_true, Bool.and_false, Bool.false_and,
          Bool.false_eq_true, if_false]
        exact hacc
      · split
        · rw [removeUserService_alGet]
          rw [if_neg (fun hh => hpu hh.symm)]
          exact hacc
        · exact hacc
    exact ih _ (fun q hq => hes q (List.mem_cons_of_mem _ hq)) hstep

/-- Claim C6, counterexample.  The claim asserts that a connected session
with no owner activity beyond the second, longer idle threshold is evicted
when the idle machinery fires.  In the code neither mechanism ever evicts a
connected session: with one tenant connected, last activity at time 0, and
the machinery firing at time 10^9 ms (far beyond both the 30-minute sweep
threshold and the 2-hour timer delay), both the periodic sweep and the
per-tenant cleanup timer leave the session registered. -/
theorem C6_cex_connected_idle_not_evicted :
    ServiceManager.alGet
        (ServiceManager.cleanupInactiveServices
          ⟨[("tenant-1", ⟨0, true, false⟩)], [("tenant-1", 0)],
            [("tenant-1", 7200000)], 1⟩ 1000000000).userServices "tenant-1" =
      some ⟨0, true, false⟩ ∧
    ServiceManager.alGet
        (ServiceManager.cleanupTimerFire
          ⟨[("tenant-1", ⟨0, true, false⟩)], [("tenant-1", 0)],
            [("tenant-1", 7200000)], 1⟩ "tenant-1" 1000000000).userServices "tenant-1" =
      some ⟨0, true, false⟩ := by
  decide

/-- Claim C6, amended.  The idle machinery never evicts a connected
session: the periodic sweep only removes sessions that are inactive beyond
the 30-minute threshold and not connected and without a pending QR code,
and the per-tenant 2-hour cleanup timer removes only disconnected sessions,
rescheduling itself when the session is connected — so for every registry
state with distinct tenant keys, a connected session survives both the
sweep and its timer firing, regardless of how long it has been idle. -/
theorem C6_amended_connected_never_evicted (st : ServiceManager.ManagerState)
    (u : String) (svc : ServiceManager.ServiceInfo) (now : Nat)
    (hnd : (st.userServices.map Prod.fst).Nodup)
    (hu : ServiceManager.alGet st.userServices u = some svc)
    (hconn : svc.isConnected = true) :
    ServiceManager.alGet
      (ServiceManager.cleanupInactiveServices st now).userServices u = some svc ∧
    ServiceManager.alGet
      (ServiceManager.cleanupTimerFire st u now).userServices u = some svc := by
  constructor
  · exact sweep_foldl_keeps st now u svc hconn st.userServices st
      (alGet_unique _ _ _ hnd hu) hu
  · unfold ServiceManager.cleanupTimerFire
    rw [hu]
    show ServiceManager.alGet
      (if (!svc.isConnected) = true then ServiceManager.removeUserService st u
       else ServiceManager.resetCleanupTimer st u now).userServices u = some svc
    rw [hconn]
    simp only [Bool.not_true, Bool.false_eq_true, if_false]
    exact hu

/-- Witness for C6 (amended): the concrete connected, long-idle session of
the counterexample survives both machineries. -/
theorem C6_amended_witness :
    ((([("tenant-1", (⟨0, true, false⟩ : ServiceManager.ServiceInfo))].map
        Prod.fst).Nodup) ∧
      ServiceManager.alGet
        ([("tenant-1", (⟨0, true, false⟩ : ServiceManager.ServiceInfo))]) "tenant-1" =
        some ⟨0, true, false⟩) ∧
    ServiceManager.alGet
        (ServiceManager.cleanupInactiveServices
          ⟨[("tenant-1", ⟨0, true, false⟩)], [("tenant-1", 0)],
            [("tenant-1", 7200000)], 1⟩ 999999999).userServices "tenant-1" =
      some ⟨0, true, false⟩ := by
  refine ⟨⟨by decide, by decide⟩, ?_⟩
  exact (C6_amended_connected_never_evicted
    ⟨[("tenant-1", ⟨0, true, false⟩)], [("tenant-1", 0)],
      [("tenant-1", 7200000)], 1⟩ "tenant-1" ⟨0, true, false⟩ 999999999
    (by decide) (by decide) rfl).1

/-- After `getServiceForUser`, the registry maps the tenant to the returned
service. -/
theorem getServiceForUser_alGet (st : ServiceManager.ManagerState) (u : String)
    (now : Nat) :
    ServiceManager.alGet
        (ServiceManager.getServiceForUser st u now).2.userServices u =
      some (ServiceManager.getServiceForUser st u now).1 := by
  simp only [ServiceManager.getServiceForUser, ServiceManager.resetCleanupTimer]
  rcases h : ServiceManager.alGet st.userServices u with _ | s
  · exact alGet_alSet_self _ _ _
  · exact h

/-- `getServiceForUser` returns the registered service when one exists. -/
theorem getServiceForUser_of_present (st : ServiceManager.ManagerState)
    (u : String) (now : Nat) (svc : ServiceManager.ServiceInfo)
    (h : ServiceManager.alGet st.userServices u = some svc) :
    (ServiceManager.getServiceForUser st u now).1 = svc := by
  simp only [ServiceManager.getServiceForUser]
  rw [h]

/-- Any lookup surviving the sweep fold was already there with the same
value: the sweep only removes entries, never rewrites one. -/
theorem sweep_foldl_pres (stO : ServiceManager.ManagerState) (now : Nat)
    (u : String) (es : List (String × ServiceManager.ServiceInfo))
    (acc : ServiceManager.ManagerState) (v : ServiceManager.ServiceInfo)
    (h : ServiceManager.alGet
      ((es.foldl (ServiceManager.sweepStep stO now) acc).userServices) u = some v) :
    ServiceManager.alGet acc.userServices u = some v := by
  induction es generalizing acc with
  | nil => exact h
  | cons p ps ih =>
    rw [List.foldl_cons] at h
    have hstep := ih _ h
    simp only [ServiceManager.sweepStep] at hstep
    split at hstep
    · rw [removeUserService_alGet] at hstep
      split at hstep
      · exact absurd hstep (by simp)
      · exact hstep
    · exact hstep

/-- Two successful lookups of the same slot agree on the instance id. -/
theorem someInstanceEq (o : Option ServiceManager.ServiceInfo)
    (svc svc2 : ServiceManager.ServiceInfo)
    (h1 : o = some svc) (h2 : o = some svc2) :
    svc2.instanceId = svc.instanceId := by
  rw [h1] at h2
  rw [Option.some.inj h2]

/-- No registry operation rewrites the instance identity of an existing
entry: whatever the lookup returns after the operation has the instance id
it had before (operations either keep the entry, delete it, refresh its
connection status, or create entries only for absent tenants). -/
theorem runOp_instance_stable (op : ServiceManager.MgrOp)
    (st : ServiceManager.ManagerState) (u : String)
    (svc svc2 : ServiceManager.ServiceInfo)
    (hu : ServiceManager.alGet st.userServices u = some svc)
    (h2 : ServiceManager.alGet (ServiceManager.runOp st op).userServices u = some svc2) :
    svc2.instanceId = svc.instanceId := by
  cases op with
  | getOrCreate u2 now =>
    simp only [ServiceManager.runOp, ServiceManager.getServiceForUser,
      ServiceManager.resetCleanupTimer] at h2
    split at h2
    · exact someInstanceEq _ svc svc2 hu h2
    next hs =>
      have h2b : ServiceManager.alGet
          (ServiceManager.alSet st.userServices u2
            ⟨st.nextInstanceId, false, false⟩) u = some svc2 := h2
      have hne2 : u ≠ u2 := by
        intro hh
        rw [hh, hs] at hu
        exact absurd hu (by simp)
      rw [alGet_alSet_ne _ _ _ _ hne2] at h2b
      exact someInstanceEq _ svc svc2 hu h2b
  | getExisting u2 now =>
    simp only [ServiceManager.runOp, ServiceManager.getExistingService] at h2
    split at h2
    · exact someInstanceEq _ svc svc2 hu h2
    · exact someInstanceEq _ svc svc2 hu h2
  | remove u2 =>
    simp only [ServiceManager.runOp] at h2
    rw [removeUserService_alGet] at h2
    split at h2
    · exact absurd h2 (by simp)
    · exact someInstanceEq _ svc svc2 hu h2
  | timerFire u2 now =>
    simp only [ServiceManager.runOp, ServiceManager.cleanupTimerFire] at h2
    split at h2
    · exact someInstanceEq _ svc svc2 hu h2
    · split at h2
      · rw [removeUserService_alGet] at h2
        split at h2
        · exact absurd h2 (by simp)
        · exact someInstanceEq _ svc svc2 hu h2
      · exact someInstanceEq _ svc svc2 hu h2
  | sweep now =>
    simp only [ServiceManager.runOp, ServiceManager.cleanupInactiveServices] at h2
    have hpre := sweep_foldl_pres st now u st.userServices st svc2 h2
    exact someInstanceEq _ svc svc2 hu hpre
  | setStatus u2 c q =>
    simp only [ServiceManager.runOp, ServiceManager.setStatus] at h2
    split at h2
    · exact someInstanceEq _ svc svc2 hu h2
    next s hs =>
      have h2b : ServiceManager.alGet
          (ServiceManager.alSet st.userServices u2
            { s with isConnected := c, hasQrCode := q }) u = some svc2 := h2
      by_cases hne2 : u = u2
      · subst hne2
        rw [alGet_alSet_self] at h2b
        rw [hs] at hu
        rw [← Option.some.inj h2b, ← Option.some.inj hu]
      · rw [alGet_alSet_ne _ _ _ _ hne2] at h2b
        exact someInstanceEq _ svc svc2 hu h2b

/-- A non-evicting operation keeps the tenant registered (with the same
instance id, by `runOp_instance_stable`). -/
theorem runOp_keeps_present (op : ServiceManager.MgrOp)
    (st : ServiceManager.ManagerState) (u : String)
    (svc : ServiceManager.ServiceInfo)
    (hu : ServiceManager.alGet st.userServices u = some svc)
    (hne : ServiceManager.evictsUser st op u = false) :
    ∃ svc2, ServiceManager.alGet
      (ServiceManager.runOp st op).userServices u = some svc2 := by
  unfold ServiceManager.evictsUser at hne
  rw [hu] at hne
  simp only [Option.isSome_some, Bool.true_and] at hne
  rcases h : ServiceManager.alGet (ServiceManager.runOp st op).userServices u with _ | s
  · rw [h] at hne
    simp at hne
  · exact ⟨s, rfl⟩

/-- Running a sequence of non-evicting operations keeps the tenant
registered with the original instance id. -/
theorem noEvict_foldl_keeps (ops : List ServiceManager.MgrOp)
    (st : ServiceManager.ManagerState) (u : String)
    (svc : ServiceManager.ServiceInfo)
    (hu : ServiceManager.alGet st.userServices u = some svc)
    (hne : ServiceManager.noEvictFrom u st ops = true) :
    ∃ svc2, ServiceManager.alGet
        ((ops.foldl ServiceManager.runOp st).userServices) u = some svc2 ∧
      svc2.instanceId = svc.instanceId := by
  induction ops generalizing st svc with
  | nil => exact ⟨svc, hu, rfl⟩
  | cons op ops ih =>
    unfold ServiceManager.noEvictFrom at hne
    rw [Bool.and_eq_true, Bool.not_eq_true'] at hne
    obtain ⟨svc1, h1⟩ := runOp_keeps_present op st u svc hu hne.1
    have hid1 : svc1.instanceId = svc.instanceId :=
      runOp_instance_stable op st u svc svc1 hu h1
    obtain ⟨svc2, h2, hid2⟩ := ih (ServiceManager.runOp st op) svc1 h1 hne.2
    exact ⟨svc2, by simpa using h2, hid2.trans hid1⟩

/-- Claim C8.  `getServiceForUser` is idempotent: after a first call for a
tenant, any interleaving of registry operations (lookups, creations for
other tenants, status changes, timer fires and sweeps) that does not evict
that tenant leaves a later call for the same tenant returning the same
session instance as the first call. -/
theorem C8_getServiceForUser_idempotent (st : ServiceManager.ManagerState)
    (u : String) (now1 now2 : Nat) (ops : List ServiceManager.MgrOp)
    (hne : ServiceManager.noEvictFrom u
      (ServiceManager.getServiceForUser st u now1).2 ops = true) :
    ((ServiceManager.getServiceForUser
        (ops.foldl ServiceManager.runOp (ServiceManager.getServiceForUser st u now1).2)
        u now2).1).instanceId =
      ((ServiceManager.getServiceForUser st u now1).1).instanceId := by
  obtain ⟨svc2, h2, hid⟩ := noEvict_foldl_keeps ops
    (ServiceManager.getServiceForUser st u now1).2 u
    (ServiceManager.getServiceForUser st u now1).1
    (getServiceForUser_alGet st u now1) hne
  rw [getServiceForUser_of_present _ _ now2 svc2 h2, hid]

/-- Witness for C8: starting from an empty registry, creating the tenant,
then creating another tenant, marking the first connected and running a
sweep that evicts the idle second tenant, a repeated `getServiceForUser`
still returns the first call's instance. -/
theorem C8_getServiceForUser_witness :
    ServiceManager.noEvictFrom "tenant-1"
        (ServiceManager.getServiceForUser ⟨[], [], [], 0⟩ "tenant-1" 0).2
        [ServiceManager.MgrOp.getOrCreate "tenant-2" 5,
         ServiceManager.MgrOp.setStatus "tenant-1" true false,
         ServiceManager.MgrOp.sweep 100000000] = true ∧
    ((ServiceManager.getServiceForUser
        ([ServiceManager.MgrOp.getOrCreate "tenant-2" 5,
          ServiceManager.MgrOp.setStatus "tenant-1" true false,
          ServiceManager.MgrOp.sweep 100000000].foldl ServiceManager.runOp
          (ServiceManager.getServiceForUser ⟨[], [], [], 0⟩ "tenant-1" 0).2)
        "tenant-1" 100000001).1).instanceId =
      ((ServiceManager.getServiceForUser ⟨[], [], [], 0⟩ "tenant-1" 0).1).instanceId := by
  refine ⟨by decide, ?_⟩
  exact C8_getServiceForUser_idempotent ⟨[], [], [], 0⟩ "tenant-1" 0 100000001
    [ServiceManager.MgrOp.getOrCreate "tenant-2" 5,
     ServiceManager.MgrOp.setStatus "tenant-1" true false,
     ServiceManager.MgrOp.sweep 100000000] (by decide)
